import Mathlib

/-!
# The ALSA capture and playback loops

A shallow embedding of the two streaming loops of the repository,
`capture()` in `projects/audio_capture/remote/src/main.c` and `playback()` in
`projects/audio_playback/remote/src/main.c`.

The loops talk to four kinds of external code: the signal handler
(`check_for_signals`), the ALSA device (`snd_pcm_readi`, `snd_pcm_writei`,
`snd_pcm_recover`, `snd_pcm_prepare`) and stdio (`fread`, `fwrite`).  The signal
handler, the device and the output sink are modelled by result streams: the
`k`-th call of a function returns the `k`-th element of its stream, whatever the
arguments, so quantifying over all streams covers every behaviour of the
environment.  The file is a sequence of bytes; `fwrite` may store fewer items
than it is handed (a full disk), and `capture` does not look at its result.  Every external call is appended to a trace, so that
"function `f` was not called" is a statement about the trace.

`print_error` only writes a message to the error stream and is left out.

The counts the loops compute (`buffer_size * NUM_CHANNELS`,
`frames_read * NUM_CHANNELS`, `frames_read / NUM_CHANNELS`) are bounded by the
size of the buffer in memory, far below `2 ^ 63`, so that the conversions between
`size_t`, `snd_pcm_uframes_t` and `snd_pcm_sframes_t` keep their values; they are
`Nat` and `Int` here.
-/

namespace SoundLoop

/-- One byte of raw PCM data. -/
abbrev Byte := Fin 256

/-- `#define FRAMES 128`. -/
def FRAMES : Nat := 128

/-- `#define NUM_CHANNELS 2`. -/
def NUM_CHANNELS : Nat := 2

/-- `sizeof(short)`, the item size handed to `fread` and `fwrite`. -/
def sizeof_short : Nat := 2

/-- Modelled from the spec: `utilities.h` is not among the sources; the success
code is 0 ("Exit codes: 0 on success"), and the loops compare ALSA results,
which are 0 on success, with it. -/
def E_SUCCESS : Int := 0

/-- The environment of one run.  `SHUTDOWN` (from `signal_handler.h`) and
`E_FAILURE` (from `utilities.h`) are constants of headers that are not among the
sources and are taken as parameters.  The other fields are the result streams
of the functions the loops call but do not define: `signals k` is what the
`k`-th call of `check_for_signals` (signal handler module, not among the
sources) returns, `reads k` is the return value of the `k`-th `snd_pcm_readi`
call together with the bytes the device deposited at the start of the buffer,
`writes`, `recovers` and `prepares` are the return values of `snd_pcm_writei`,
`snd_pcm_recover` and `snd_pcm_prepare`, and `fwrites k` is the number of items
the output file has room for at the `k`-th `fwrite` call. -/
structure Env where
  SHUTDOWN : Int
  E_FAILURE : Int
  signals : Nat → Int
  reads : Nat → Int × List Byte
  writes : Nat → Int
  recovers : Nat → Int
  prepares : Nat → Int
  fwrites : Nat → Nat

/-- The external calls a loop makes, with their visible arguments and results. -/
inductive Event where
  | check (ret : Int)
  | readi (size : Nat) (ret : Int)
  | writei (size : Nat) (data : List Byte) (ret : Int)
  | recover (err : Int) (ret : Int)
  | prepare (ret : Int)
  | fwrite (data : List Byte) (ret : Nat)
  | fread (ret : Nat)
  deriving DecidableEq, Repr

/-- The state a loop works on: how many calls of each stream were consumed, the
memory block `buffer`, the file (in `capture` the content written so far, in
`playback` the content not yet read) and the trace of external calls. -/
structure Sys where
  sigCalls : Nat
  pcmCalls : Nat
  recCalls : Nat
  prepCalls : Nat
  fwCalls : Nat
  buffer : List Byte
  file : List Byte
  trace : List Event
  deriving DecidableEq, Repr

/-- The state at function entry. -/
def Sys.start (buffer file : List Byte) : Sys :=
  { sigCalls := 0, pcmCalls := 0, recCalls := 0, prepCalls := 0, fwCalls := 0,
    buffer := buffer, file := file, trace := [] }

/-- Writing `data` at the start of the memory block `buf`; the block keeps its
size (bytes that would land behind its end are dropped: C gives no meaning to
them). -/
def store (data buf : List Byte) : List Byte :=
  (data ++ buf.drop data.length).take buf.length

/-- The call `check_for_signals()`. -/
def check_for_signals (env : Env) (s : Sys) : Int × Sys :=
  (env.signals s.sigCalls,
   { s with sigCalls := s.sigCalls + 1,
            trace := s.trace ++ [Event.check (env.signals s.sigCalls)] })

/-- The call `snd_pcm_readi(handle, buffer, size)`. -/
def snd_pcm_readi (env : Env) (size : Nat) (s : Sys) : Int × Sys :=
  ((env.reads s.pcmCalls).1,
   { s with pcmCalls := s.pcmCalls + 1,
            buffer := store (env.reads s.pcmCalls).2 s.buffer,
            trace := s.trace ++ [Event.readi size (env.reads s.pcmCalls).1] })

/-- The call `snd_pcm_writei(handle, buffer, size)`: the device is handed the
first `size` frames of the buffer, a frame being `NUM_CHANNELS` shorts. -/
def snd_pcm_writei (env : Env) (size : Nat) (s : Sys) : Int × Sys :=
  (env.writes s.pcmCalls,
   { s with pcmCalls := s.pcmCalls + 1,
            trace := s.trace ++
              [Event.writei size (s.buffer.take (size * NUM_CHANNELS * sizeof_short))
                (env.writes s.pcmCalls)] })

/-- The call `snd_pcm_recover(handle, err, 0)`. -/
def snd_pcm_recover (env : Env) (err : Int) (s : Sys) : Int × Sys :=
  (env.recovers s.recCalls,
   { s with recCalls := s.recCalls + 1,
            trace := s.trace ++ [Event.recover err (env.recovers s.recCalls)] })

/-- The call `snd_pcm_prepare(handle)`. -/
def snd_pcm_prepare (env : Env) (s : Sys) : Int × Sys :=
  (env.prepares s.prepCalls,
   { s with prepCalls := s.prepCalls + 1,
            trace := s.trace ++ [Event.prepare (env.prepares s.prepCalls)] })

/-- The call `fwrite(buffer, sizeof(short), nmemb, output_file)`: it is handed the
first `nmemb` shorts of the buffer and stores as many of them as the file has
room for, `min nmemb (env.fwrites k)` at call number `k`; that number is its
return value, which the source discards.  The event records the bytes handed
over and the return value. -/
def fwrite (env : Env) (nmemb : Nat) (s : Sys) : Sys :=
  { s with fwCalls := s.fwCalls + 1,
           file := s.file ++
             s.buffer.take (sizeof_short * min nmemb (env.fwrites s.fwCalls)),
           trace := s.trace ++
             [Event.fwrite (s.buffer.take (sizeof_short * nmemb))
               (min nmemb (env.fwrites s.fwCalls))] }

/-- The call `fread(buffer, sizeof(short), nmemb, input_file)`: up to
`sizeof(short) * nmemb` bytes move from the file to the buffer, the result is
the number of whole shorts among them. -/
def fread (nmemb : Nat) (s : Sys) : Nat × Sys :=
  ((s.file.take (sizeof_short * nmemb)).length / sizeof_short,
   { s with buffer := store (s.file.take (sizeof_short * nmemb)) s.buffer,
            file := s.file.drop (sizeof_short * nmemb),
            trace := s.trace ++
              [Event.fread ((s.file.take (sizeof_short * nmemb)).length / sizeof_short)] })

/-- What one pass through a loop body does: go round again, or leave the
function with an exit code. -/
inductive Step where
  | next (s : Sys)
  | ret (exit_code : Int) (s : Sys)
  deriving DecidableEq, Repr

/-- The second half of the body of `capture` (lines 216-238): the test of the
possibly recovered `frames_read`, then either `snd_pcm_prepare` or `fwrite`. -/
def captureTail (env : Env) (frames_read : Int) (s : Sys) : Step :=
  if frames_read < 0 then
    if (check_for_signals env s).1 = env.SHUTDOWN then
      Step.ret E_SUCCESS (check_for_signals env s).2
    else if (snd_pcm_prepare env (check_for_signals env s).2).1 ≠ E_SUCCESS then
      Step.ret (snd_pcm_prepare env (check_for_signals env s).2).1
        (snd_pcm_prepare env (check_for_signals env s).2).2
    else
      Step.next (snd_pcm_prepare env (check_for_signals env s).2).2
  else
    Step.next (fwrite env (frames_read * NUM_CHANNELS).toNat s)

/-- The part of the body of `capture` after the shutdown check at the top (lines
203-238). -/
def captureRead (env : Env) (buffer_size : Nat) (s : Sys) : Step :=
  if (snd_pcm_readi env buffer_size s).1 < 0 then
    if (check_for_signals env (snd_pcm_readi env buffer_size s).2).1 = env.SHUTDOWN then
      Step.ret E_SUCCESS (check_for_signals env (snd_pcm_readi env buffer_size s).2).2
    else
      captureTail env
        (snd_pcm_recover env (snd_pcm_readi env buffer_size s).1
          (check_for_signals env (snd_pcm_readi env buffer_size s).2).2).1
        (snd_pcm_recover env (snd_pcm_readi env buffer_size s).1
          (check_for_signals env (snd_pcm_readi env buffer_size s).2).2).2
  else
    captureTail env (snd_pcm_readi env buffer_size s).1 (snd_pcm_readi env buffer_size s).2

/-- One pass through the body of `while (1)` in `capture` (lines 196-238). -/
def captureBody (env : Env) (buffer_size : Nat) (s : Sys) : Step :=
  if (check_for_signals env s).1 = env.SHUTDOWN then
    Step.ret E_SUCCESS (check_for_signals env s).2
  else
    captureRead env buffer_size (check_for_signals env s).2

/-- The loop `while (1)` of `capture`, cut off after `fuel` passes (the loop
itself has no bound). -/
def captureLoop (env : Env) (buffer_size : Nat) : Nat → Sys → Option (Int × Sys)
  | 0, _ => none
  | fuel + 1, s =>
    match captureBody env buffer_size s with
    | Step.ret exit_code s' => some (exit_code, s')
    | Step.next s' => captureLoop env buffer_size fuel s'

/-- The function `capture(capture_handle, buffer, buffer_size, output_file)`.
A pointer is `none` when it is `NULL`; `output_file` is the content of the file
at entry.  The result is the exit code and the final state, or `none` when the
loop is still running after `fuel` passes. -/
def capture (env : Env) (capture_handle : Option Unit) (buffer : Option (List Byte))
    (buffer_size : Nat) (output_file : List Byte) (fuel : Nat) : Option (Int × Sys) :=
  match capture_handle, buffer with
  | some _, some buf => captureLoop env buffer_size fuel (Sys.start buf output_file)
  | _, _ => some (env.E_FAILURE, Sys.start [] output_file)

/-- The second half of the body of `playback` (lines 222-239). -/
def playbackTail (env : Env) (frames_written : Int) (s : Sys) : Step :=
  if frames_written < 0 then
    if (check_for_signals env s).1 = env.SHUTDOWN then
      Step.ret E_SUCCESS (check_for_signals env s).2
    else if (snd_pcm_prepare env (check_for_signals env s).2).1 ≠ E_SUCCESS then
      Step.ret (snd_pcm_prepare env (check_for_signals env s).2).1
        (snd_pcm_prepare env (check_for_signals env s).2).2
    else
      Step.next (snd_pcm_prepare env (check_for_signals env s).2).2
  else
    Step.next s

/-- The part of the body of `playback` from the device write on (lines 207-239);
`frames_read` is the result of the `fread` of this pass. -/
def playbackWrite (env : Env) (frames_read : Nat) (s : Sys) : Step :=
  if (snd_pcm_writei env (frames_read / NUM_CHANNELS) s).1 < 0 then
    if (check_for_signals env (snd_pcm_writei env (frames_read / NUM_CHANNELS) s).2).1
        = env.SHUTDOWN then
      Step.ret E_SUCCESS
        (check_for_signals env (snd_pcm_writei env (frames_read / NUM_CHANNELS) s).2).2
    else
      playbackTail env
        (snd_pcm_recover env (snd_pcm_writei env (frames_read / NUM_CHANNELS) s).1
          (check_for_signals env
            (snd_pcm_writei env (frames_read / NUM_CHANNELS) s).2).2).1
        (snd_pcm_recover env (snd_pcm_writei env (frames_read / NUM_CHANNELS) s).1
          (check_for_signals env
            (snd_pcm_writei env (frames_read / NUM_CHANNELS) s).2).2).2
  else
    playbackTail env (snd_pcm_writei env (frames_read / NUM_CHANNELS) s).1
      (snd_pcm_writei env (frames_read / NUM_CHANNELS) s).2

/-- One pass of the loop of `playback`, loop condition included (lines 196-240):
the `fread` in the condition, the exit with `E_SUCCESS` when it read nothing, the
shutdown check, then the device write. -/
def playbackBody (env : Env) (buffer_size : Nat) (s : Sys) : Step :=
  if 0 < (fread (buffer_size * NUM_CHANNELS) s).1 then
    if (check_for_signals env (fread (buffer_size * NUM_CHANNELS) s).2).1 = env.SHUTDOWN then
      Step.ret E_SUCCESS (check_for_signals env (fread (buffer_size * NUM_CHANNELS) s).2).2
    else
      playbackWrite env (fread (buffer_size * NUM_CHANNELS) s).1
        (check_for_signals env (fread (buffer_size * NUM_CHANNELS) s).2).2
  else
    Step.ret E_SUCCESS (fread (buffer_size * NUM_CHANNELS) s).2

/-- The loop of `playback`, cut off after `fuel` passes. -/
def playbackLoop (env : Env) (buffer_size : Nat) : Nat → Sys → Option (Int × Sys)
  | 0, _ => none
  | fuel + 1, s =>
    match playbackBody env buffer_size s with
    | Step.ret exit_code s' => some (exit_code, s')
    | Step.next s' => playbackLoop env buffer_size fuel s'

/-- The function `playback(playback_handle, buffer, buffer_size, input_file)`.
A pointer is `none` when it is `NULL`; `input_file` is the content of the file
from the read position on. -/
def playback (env : Env) (playback_handle : Option Unit) (buffer : Option (List Byte))
    (buffer_size : Nat) (input_file : List Byte) (fuel : Nat) : Option (Int × Sys) :=
  match playback_handle, buffer with
  | some _, some buf => playbackLoop env buffer_size fuel (Sys.start buf input_file)
  | _, _ => some (env.E_FAILURE, Sys.start [] input_file)

/-- The state a pass through a loop body ends in. -/
def Step.sys : Step → Sys
  | Step.next s => s
  | Step.ret _ s => s

/-! ## Measures on traces -/

/-- The number of calls in a trace that reset the stream (`snd_pcm_recover` or
`snd_pcm_prepare`). -/
def resetCalls : List Event → Nat
  | [] => 0
  | Event.recover _ _ :: t => resetCalls t + 1
  | Event.prepare _ :: t => resetCalls t + 1
  | _ :: t => resetCalls t

/-- The number of failed device transfers in a trace (`snd_pcm_readi` or
`snd_pcm_writei` with a negative result). -/
def deviceErrors : List Event → Nat
  | [] => 0
  | Event.readi _ r :: t => deviceErrors t + (if r < 0 then 1 else 0)
  | Event.writei _ _ r :: t => deviceErrors t + (if r < 0 then 1 else 0)
  | _ :: t => deviceErrors t

/-- The device writes of a trace, in call order: frame count, bytes handed
over, result. -/
def writeEvents : List Event → List (Nat × List Byte × Int)
  | [] => []
  | Event.writei size data ret :: t => (size, data, ret) :: writeEvents t
  | _ :: t => writeEvents t

/-- All bytes handed to the device by a list of writes, in call order. -/
def dataOf : List (Nat × List Byte × Int) → List Byte
  | [] => []
  | (_, data, _) :: t => data ++ dataOf t

/-- The bytes of the writes that succeeded, in call order. -/
def deliveredOf : List (Nat × List Byte × Int) → List Byte
  | [] => []
  | (_, data, ret) :: t => if 0 ≤ ret then data ++ deliveredOf t else deliveredOf t

/-- No `snd_pcm_prepare` call of the trace has failed. -/
def noFatalPrepare (t : List Event) : Prop :=
  ∀ p, Event.prepare p ∈ t → p = 0

/-- The trace holds a pass of `capture` in which the read failed, then
`snd_pcm_recover` failed, then `snd_pcm_prepare` returned the non-zero value
`p`, and neither of the two shutdown checks in between saw `SHUTDOWN`. -/
def CaptureFatal (env : Env) (t : List Event) (p : Int) : Prop :=
  ∃ pre post size n v1 e r v2,
    t = pre ++ [Event.readi size n, Event.check v1, Event.recover e r, Event.check v2,
      Event.prepare p] ++ post ∧
    n < 0 ∧ v1 ≠ env.SHUTDOWN ∧ r < 0 ∧ v2 ≠ env.SHUTDOWN ∧ p ≠ 0

/-- The same for `playback`, the failed transfer being a write. -/
def PlaybackFatal (env : Env) (t : List Event) (p : Int) : Prop :=
  ∃ pre post size data n v1 e r v2,
    t = pre ++ [Event.writei size data n, Event.check v1, Event.recover e r, Event.check v2,
      Event.prepare p] ++ post ∧
    n < 0 ∧ v1 ≠ env.SHUTDOWN ∧ r < 0 ∧ v2 ≠ env.SHUTDOWN ∧ p ≠ 0

/-- The frames a trace moved to or from the device: the results of the
successful `snd_pcm_readi` and `snd_pcm_writei` calls, added up. -/
def framesTransferred : List Event → Nat
  | [] => 0
  | Event.readi _ r :: t => r.toNat + framesTransferred t
  | Event.writei _ _ r :: t => r.toNat + framesTransferred t
  | _ :: t => framesTransferred t

/-- The samples a trace moved to or from the file: the results of the `fwrite`
and `fread` calls, added up. -/
def samplesMoved : List Event → Nat
  | [] => 0
  | Event.fwrite _ r :: t => r + samplesMoved t
  | Event.fread r :: t => r + samplesMoved t
  | _ :: t => samplesMoved t

/-- The calls of one pass: what the trace `after` the pass holds beyond the trace
`before` it. -/
def passTrace (before after : List Event) : List Event :=
  after.drop before.length

/-! ## What the loops are expected to transfer -/

/-- The content of the buffer after the first `k` calls of `snd_pcm_readi`. -/
def bufferAfter (env : Env) (buf : List Byte) : Nat → List Byte
  | 0 => buf
  | k + 1 => store (env.reads k).2 (bufferAfter env buf k)

/-- What read number `k` contributes to the output: for a successful result `n`
the first `n * NUM_CHANNELS` shorts of the buffer as the read left it, for a
failed read nothing. -/
def readPrefix (env : Env) (buf : List Byte) (k : Nat) : List Byte :=
  if 0 ≤ (env.reads k).1 then
    (bufferAfter env buf (k + 1)).take ((env.reads k).1.toNat * NUM_CHANNELS * sizeof_short)
  else []

/-- The concatenation, in read order, of what the first `k` reads contribute. -/
def capturedData (env : Env) (buf : List Byte) : Nat → List Byte
  | 0 => []
  | k + 1 => capturedData env buf k ++ readPrefix env buf k

/-- The number of frames the first `k` reads delivered. -/
def framesRead (env : Env) : Nat → Nat
  | 0 => 0
  | k + 1 => framesRead env k + (env.reads k).1.toNat

/-- The loop invariant of `capture`: the file holds the initial content followed
by the contributions of the reads made so far. -/
def CaptureInv (env : Env) (buf file : List Byte) (s : Sys) : Prop :=
  s.file = file ++ capturedData env buf s.pcmCalls ∧ s.buffer = bufferAfter env buf s.pcmCalls

/-- The capacity in bytes of the buffer `main` passes: `FRAMES * NUM_CHANNELS`
shorts. -/
def BUFFER_BYTES : Nat := FRAMES * NUM_CHANNELS * sizeof_short

/-- The writes a file is cut into: block after block of `BUFFER_BYTES` bytes, the
`i`-th block going to write call number `k + i`, each as whole frames.  The
first argument bounds the number of blocks. -/
def expectedWrites (env : Env) : Nat → Nat → List Byte → List (Nat × List Byte × Int)
  | 0, _, _ => []
  | m + 1, k, l =>
    if l = [] then []
    else ((l.take BUFFER_BYTES).length / (NUM_CHANNELS * sizeof_short), l.take BUFFER_BYTES,
           env.writes k) :: expectedWrites env m (k + 1) (l.drop BUFFER_BYTES)

/-! ## Sample data and environments -/

/-- A zeroed buffer of `n` bytes. -/
def zeroBuffer (n : Nat) : List Byte := List.replicate n 0

/-- Eight bytes of file content (two frames). -/
def twoFrames : List Byte := [1, 2, 3, 4, 5, 6, 7, 8]

/-- Sixteen bytes of file content (four frames). -/
def fourFrames : List Byte := [1, 2, 3, 4, 5, 6, 7, 8, 9, 10, 11, 12, 13, 14, 15, 16]

/-- A file of 512 bytes: 128 frames of two 16-bit samples. -/
def fullBufferFile : List Byte := (List.range 512).map (fun i => Fin.ofNat i)

/-- An environment in which nothing happens: no shutdown request, the device
reads no frame and accepts every write, every reset succeeds and the output
file has room for every `fwrite`. -/
def quietEnv : Env where
  SHUTDOWN := 1
  E_FAILURE := -1
  signals := fun _ => 0
  reads := fun _ => (0, [])
  writes := fun _ => 0
  recovers := fun _ => 0
  prepares := fun _ => 0
  fwrites := fun _ => 65536

/-- A shutdown request is pending from the start. -/
def shutdownEnv : Env :=
  { quietEnv with signals := fun _ => 1 }

/-- The first device transfer fails with `-EPIPE`, and the shutdown request
arrives during it: the first check sees nothing, all later ones see it. -/
def errorThenShutdownEnv : Env :=
  { quietEnv with
    signals := fun k => if k = 0 then 0 else 1
    reads := fun _ => (-32, [])
    writes := fun _ => -32 }

/-- The first device transfer fails with `-EPIPE` and `snd_pcm_recover` fails
too; `snd_pcm_prepare` returns `prep`.  The second read delivers one frame;
the shutdown request is seen by the fifth check. -/
def brokenPipeEnv (prep : Int) : Env :=
  { quietEnv with
    signals := fun k => if k < 4 then 0 else 1
    reads := fun k => if k = 0 then (-32, []) else (1, [1, 2, 3, 4])
    writes := fun k => if k = 0 then -32 else 1
    recovers := fun _ => -32
    prepares := fun _ => prep }

/-- Two reads deliver 64 and 36 frames, then the shutdown request arrives. -/
def hundredFramesEnv : Env :=
  { quietEnv with
    signals := fun k => if k < 2 then 0 else 1
    reads := fun k => if k = 0 then (64, List.replicate 256 1) else (36, List.replicate 144 2) }

/-- The first device write fails with `-EPIPE` and `snd_pcm_recover` repairs the
stream; no shutdown is requested. -/
def underrunEnv : Env :=
  { quietEnv with writes := fun k => if k = 0 then -32 else 2 }

/-- The output file has no room left: the device delivers one frame per read,
every `fwrite` stores nothing, and the second check sees the shutdown
request. -/
def diskFullEnv : Env :=
  { quietEnv with
    signals := fun k => if k < 1 then 0 else 1
    reads := fun _ => (1, [1, 2, 3, 4])
    fwrites := fun _ => 0 }

/-- The first read fails with `-EPIPE`, leaving four bytes in the buffer, and
`snd_pcm_recover` returns 1; the third check sees the shutdown request. -/
def positiveRecoverEnv : Env :=
  { quietEnv with
    signals := fun k => if k < 2 then 0 else 1
    reads := fun _ => (-32, [9, 9, 9, 9])
    recovers := fun _ => 1 }

/-- The device accepts one frame per write. -/
def oneFrameEnv : Env :=
  { quietEnv with writes := fun _ => 1 }

/-- Two reads deliver 64 and 36 frames, the device accepts 128 frames per write,
and the shutdown request arrives at the third check. -/
def fullTransferEnv : Env :=
  { hundredFramesEnv with writes := fun _ => 128 }

/-! ## The loops, one pass at a time -/

theorem captureLoop_ret {env : Env} {bs : Nat} {s s' : Sys} {c : Int}
    (h : captureBody env bs s = Step.ret c s') (fuel : Nat) :
    captureLoop env bs (fuel + 1) s = some (c, s') := by
  simp [captureLoop, h]

theorem captureLoop_next {env : Env} {bs : Nat} {s s' : Sys}
    (h : captureBody env bs s = Step.next s') (fuel : Nat) :
    captureLoop env bs (fuel + 1) s = captureLoop env bs fuel s' := by
  simp [captureLoop, h]

theorem playbackLoop_ret {env : Env} {bs : Nat} {s s' : Sys} {c : Int}
    (h : playbackBody env bs s = Step.ret c s') (fuel : Nat) :
    playbackLoop env bs (fuel + 1) s = some (c, s') := by
  simp [playbackLoop, h]

theorem playbackLoop_next {env : Env} {bs : Nat} {s s' : Sys}
    (h : playbackBody env bs s = Step.next s') (fuel : Nat) :
    playbackLoop env bs (fuel + 1) s = playbackLoop env bs fuel s' := by
  simp [playbackLoop, h]

/-- More fuel does not change the result of a run of `capture` that returned. -/
theorem captureLoop_mono (env : Env) (bs : Nat) :
    ∀ (fuel : Nat) (s : Sys) (r : Int × Sys), captureLoop env bs fuel s = some r →
      ∀ k, captureLoop env bs (fuel + k) s = some r := by
  intro fuel
  induction fuel with
  | zero => intro s r h; simp [captureLoop] at h
  | succ n ih =>
    intro s r h k
    rw [show n + 1 + k = (n + k) + 1 by omega]
    cases hb : captureBody env bs s with
    | next t =>
      rw [captureLoop_next hb] at h ⊢
      exact ih t r h k
    | ret c t =>
      rw [captureLoop_ret hb] at h ⊢
      exact h

/-- More fuel does not change the result of a run of `playback` that returned. -/
theorem playbackLoop_mono (env : Env) (bs : Nat) :
    ∀ (fuel : Nat) (s : Sys) (r : Int × Sys), playbackLoop env bs fuel s = some r →
      ∀ k, playbackLoop env bs (fuel + k) s = some r := by
  intro fuel
  induction fuel with
  | zero => intro s r h; simp [playbackLoop] at h
  | succ n ih =>
    intro s r h k
    rw [show n + 1 + k = (n + k) + 1 by omega]
    cases hb : playbackBody env bs s with
    | next t =>
      rw [playbackLoop_next hb] at h ⊢
      exact ih t r h k
    | ret c t =>
      rw [playbackLoop_ret hb] at h ⊢
      exact h

theorem captureBody_eq (env : Env) (bs : Nat) (s : Sys) :
    captureBody env bs s =
      if env.signals s.sigCalls = env.SHUTDOWN then
        Step.ret 0 { s with sigCalls := s.sigCalls + 1,
                            trace := s.trace ++ [Event.check (env.signals s.sigCalls)] }
      else if 0 ≤ (env.reads s.pcmCalls).1 then
        Step.next { s with
          sigCalls := s.sigCalls + 1, pcmCalls := s.pcmCalls + 1,
          fwCalls := s.fwCalls + 1,
          buffer := store (env.reads s.pcmCalls).2 s.buffer,
          file := s.file ++ (store (env.reads s.pcmCalls).2 s.buffer).take
            (sizeof_short * min ((env.reads s.pcmCalls).1 * NUM_CHANNELS).toNat
              (env.fwrites s.fwCalls)),
          trace := s.trace ++ [Event.check (env.signals s.sigCalls),
            Event.readi bs (env.reads s.pcmCalls).1,
            Event.fwrite ((store (env.reads s.pcmCalls).2 s.buffer).take
              (sizeof_short * ((env.reads s.pcmCalls).1 * NUM_CHANNELS).toNat))
              (min ((env.reads s.pcmCalls).1 * NUM_CHANNELS).toNat
                (env.fwrites s.fwCalls))] }
      else if env.signals (s.sigCalls + 1) = env.SHUTDOWN then
        Step.ret 0 { s with
          sigCalls := s.sigCalls + 2, pcmCalls := s.pcmCalls + 1,
          buffer := store (env.reads s.pcmCalls).2 s.buffer,
          trace := s.trace ++ [Event.check (env.signals s.sigCalls),
            Event.readi bs (env.reads s.pcmCalls).1,
            Event.check (env.signals (s.sigCalls + 1))] }
      else if 0 ≤ env.recovers s.recCalls then
        Step.next { s with
          sigCalls := s.sigCalls + 2, pcmCalls := s.pcmCalls + 1, recCalls := s.recCalls + 1,
          fwCalls := s.fwCalls + 1,
          buffer := store (env.reads s.pcmCalls).2 s.buffer,
          file := s.file ++ (store (env.reads s.pcmCalls).2 s.buffer).take
            (sizeof_short * min (env.recovers s.recCalls * NUM_CHANNELS).toNat
              (env.fwrites s.fwCalls)),
          trace := s.trace ++ [Event.check (env.signals s.sigCalls),
            Event.readi bs (env.reads s.pcmCalls).1,
            Event.check (env.signals (s.sigCalls + 1)),
            Event.recover (env.reads s.pcmCalls).1 (env.recovers s.recCalls),
            Event.fwrite ((store (env.reads s.pcmCalls).2 s.buffer).take
              (sizeof_short * (env.recovers s.recCalls * NUM_CHANNELS).toNat))
              (min (env.recovers s.recCalls * NUM_CHANNELS).toNat
                (env.fwrites s.fwCalls))] }
      else if env.signals (s.sigCalls + 2) = env.SHUTDOWN then
        Step.ret 0 { s with
          sigCalls := s.sigCalls + 3, pcmCalls := s.pcmCalls + 1, recCalls := s.recCalls + 1,
          buffer := store (env.reads s.pcmCalls).2 s.buffer,
          trace := s.trace ++ [Event.check (env.signals s.sigCalls),
            Event.readi bs (env.reads s.pcmCalls).1,
            Event.check (env.signals (s.sigCalls + 1)),
            Event.recover (env.reads s.pcmCalls).1 (env.recovers s.recCalls),
            Event.check (env.signals (s.sigCalls + 2))] }
      else if env.prepares s.prepCalls = 0 then
        Step.next { s with
          sigCalls := s.sigCalls + 3, pcmCalls := s.pcmCalls + 1, recCalls := s.recCalls + 1,
          prepCalls := s.prepCalls + 1,
          buffer := store (env.reads s.pcmCalls).2 s.buffer,
          trace := s.trace ++ [Event.check (env.signals s.sigCalls),
            Event.readi bs (env.reads s.pcmCalls).1,
            Event.check (env.signals (s.sigCalls + 1)),
            Event.recover (env.reads s.pcmCalls).1 (env.recovers s.recCalls),
            Event.check (env.signals (s.sigCalls + 2)),
            Event.prepare (env.prepares s.prepCalls)] }
      else
        Step.ret (env.prepares s.prepCalls) { s with
          sigCalls := s.sigCalls + 3, pcmCalls := s.pcmCalls + 1, recCalls := s.recCalls + 1,
          prepCalls := s.prepCalls + 1,
          buffer := store (env.reads s.pcmCalls).2 s.buffer,
          trace := s.trace ++ [Event.check (env.signals s.sigCalls),
            Event.readi bs (env.reads s.pcmCalls).1,
            Event.check (env.signals (s.sigCalls + 1)),
            Event.recover (env.reads s.pcmCalls).1 (env.recovers s.recCalls),
            Event.check (env.signals (s.sigCalls + 2)),
            Event.prepare (env.prepares s.prepCalls)] } := by
  unfold captureBody captureRead captureTail
  simp only [check_for_signals, snd_pcm_readi, snd_pcm_recover, snd_pcm_prepare, fwrite,
    E_SUCCESS, ne_eq]
  split_ifs <;> first | rfl | omega | simp_all

theorem playbackBody_eq (env : Env) (bs : Nat) (s : Sys) :
    playbackBody env bs s =
      if (fread (bs * NUM_CHANNELS) s).1 = 0 then
        Step.ret 0 (fread (bs * NUM_CHANNELS) s).2
      else if env.signals s.sigCalls = env.SHUTDOWN then
        Step.ret 0 { (fread (bs * NUM_CHANNELS) s).2 with
          sigCalls := s.sigCalls + 1,
          trace := s.trace ++ [Event.fread (fread (bs * NUM_CHANNELS) s).1,
            Event.check (env.signals s.sigCalls)] }
      else if 0 ≤ env.writes s.pcmCalls then
        Step.next { (fread (bs * NUM_CHANNELS) s).2 with
          sigCalls := s.sigCalls + 1, pcmCalls := s.pcmCalls + 1,
          trace := s.trace ++ [Event.fread (fread (bs * NUM_CHANNELS) s).1,
            Event.check (env.signals s.sigCalls),
            Event.writei ((fread (bs * NUM_CHANNELS) s).1 / NUM_CHANNELS)
              ((fread (bs * NUM_CHANNELS) s).2.buffer.take
                ((fread (bs * NUM_CHANNELS) s).1 / NUM_CHANNELS * NUM_CHANNELS * sizeof_short))
              (env.writes s.pcmCalls)] }
      else if env.signals (s.sigCalls + 1) = env.SHUTDOWN then
        Step.ret 0 { (fread (bs * NUM_CHANNELS) s).2 with
          sigCalls := s.sigCalls + 2, pcmCalls := s.pcmCalls + 1,
          trace := s.trace ++ [Event.fread (fread (bs * NUM_CHANNELS) s).1,
            Event.check (env.signals s.sigCalls),
            Event.writei ((fread (bs * NUM_CHANNELS) s).1 / NUM_CHANNELS)
              ((fread (bs * NUM_CHANNELS) s).2.buffer.take
                ((fread (bs * NUM_CHANNELS) s).1 / NUM_CHANNELS * NUM_CHANNELS * sizeof_short))
              (env.writes s.pcmCalls),
            Event.check (env.signals (s.sigCalls + 1))] }
      else if 0 ≤ env.recovers s.recCalls then
        Step.next { (fread (bs * NUM_CHANNELS) s).2 with
          sigCalls := s.sigCalls + 2, pcmCalls := s.pcmCalls + 1, recCalls := s.recCalls + 1,
          trace := s.trace ++ [Event.fread (fread (bs * NUM_CHANNELS) s).1,
            Event.check (env.signals s.sigCalls),
            Event.writei ((fread (bs * NUM_CHANNELS) s).1 / NUM_CHANNELS)
              ((fread (bs * NUM_CHANNELS) s).2.buffer.take
                ((fread (bs * NUM_CHANNELS) s).1 / NUM_CHANNELS * NUM_CHANNELS * sizeof_short))
              (env.writes s.pcmCalls),
            Event.check (env.signals (s.sigCalls + 1)),
            Event.recover (env.writes s.pcmCalls) (env.recovers s.recCalls)] }
      else if env.signals (s.sigCalls + 2) = env.SHUTDOWN then
        Step.ret 0 { (fread (bs * NUM_CHANNELS) s).2 with
          sigCalls := s.sigCalls + 3, pcmCalls := s.pcmCalls + 1, recCalls := s.recCalls + 1,
          trace := s.trace ++ [Event.fread (fread (bs * NUM_CHANNELS) s).1,
            Event.check (env.signals s.sigCalls),
            Event.writei ((fread (bs * NUM_CHANNELS) s).1 / NUM_CHANNELS)
              ((fread (bs * NUM_CHANNELS) s).2.buffer.take
                ((fread (bs * NUM_CHANNELS) s).1 / NUM_CHANNELS * NUM_CHANNELS * sizeof_short))
              (env.writes s.pcmCalls),
            Event.check (env.signals (s.sigCalls + 1)),
            Event.recover (env.writes s.pcmCalls) (env.recovers s.recCalls),
            Event.check (env.signals (s.sigCalls + 2))] }
      else if env.prepares s.prepCalls = 0 then
        Step.next { (fread (bs * NUM_CHANNELS) s).2 with
          sigCalls := s.sigCalls + 3, pcmCalls := s.pcmCalls + 1, recCalls := s.recCalls + 1,
          prepCalls := s.prepCalls + 1,
          trace := s.trace ++ [Event.fread (fread (bs * NUM_CHANNELS) s).1,
            Event.check (env.signals s.sigCalls),
            Event.writei ((fread (bs * NUM_CHANNELS) s).1 / NUM_CHANNELS)
              ((fread (bs * NUM_CHANNELS) s).2.buffer.take
                ((fread (bs * NUM_CHANNELS) s).1 / NUM_CHANNELS * NUM_CHANNELS * sizeof_short))
              (env.writes s.pcmCalls),
            Event.check (env.signals (s.sigCalls + 1)),
            Event.recover (env.writes s.pcmCalls) (env.recovers s.recCalls),
            Event.check (env.signals (s.sigCalls + 2)),
            Event.prepare (env.prepares s.prepCalls)] }
      else
        Step.ret (env.prepares s.prepCalls) { (fread (bs * NUM_CHANNELS) s).2 with
          sigCalls := s.sigCalls + 3, pcmCalls := s.pcmCalls + 1, recCalls := s.recCalls + 1,
          prepCalls := s.prepCalls + 1,
          trace := s.trace ++ [Event.fread (fread (bs * NUM_CHANNELS) s).1,
            Event.check (env.signals s.sigCalls),
            Event.writei ((fread (bs * NUM_CHANNELS) s).1 / NUM_CHANNELS)
              ((fread (bs * NUM_CHANNELS) s).2.buffer.take
                ((fread (bs * NUM_CHANNELS) s).1 / NUM_CHANNELS * NUM_CHANNELS * sizeof_short))
              (env.writes s.pcmCalls),
            Event.check (env.signals (s.sigCalls + 1)),
            Event.recover (env.writes s.pcmCalls) (env.recovers s.recCalls),
            Event.check (env.signals (s.sigCalls + 2)),
            Event.prepare (env.prepares s.prepCalls)] } := by
  unfold playbackBody
  by_cases h0 : (fread (bs * NUM_CHANNELS) s).1 = 0
  · simp [h0, E_SUCCESS]
  · rw [if_pos (Nat.pos_of_ne_zero h0), if_neg h0]
    unfold playbackWrite playbackTail
    simp only [check_for_signals, snd_pcm_writei, snd_pcm_recover, snd_pcm_prepare,
      E_SUCCESS, ne_eq]
    have e1 : (fread (bs * NUM_CHANNELS) s).2.sigCalls = s.sigCalls := rfl
    have e2 : (fread (bs * NUM_CHANNELS) s).2.pcmCalls = s.pcmCalls := rfl
    have e3 : (fread (bs * NUM_CHANNELS) s).2.recCalls = s.recCalls := rfl
    have e4 : (fread (bs * NUM_CHANNELS) s).2.prepCalls = s.prepCalls := rfl
    have e5 : (fread (bs * NUM_CHANNELS) s).2.trace
        = s.trace ++ [Event.fread (fread (bs * NUM_CHANNELS) s).1] := rfl
    simp only [e1, e2, e3, e4, e5]
    split_ifs <;> first | rfl | omega | simp_all

/-! ## Shutdown (claims C3, C4) -/

/-- C4: a shutdown request seen before any hardware error ends the loop with
`E_SUCCESS` at once.  In `capture` the check at the top of a pass is the only
call made (no `snd_pcm_readi`, no reset, no `fwrite`; the file is unchanged); in
`playback` the check after a non-empty `fread` is the last call (no
`snd_pcm_writei`, no reset). -/
theorem shutdown_before_error (env : Env) (buffer_size fuel : Nat) (sc sp : Sys)
    (hc : env.signals sc.sigCalls = env.SHUTDOWN)
    (hread : 0 < (fread (buffer_size * NUM_CHANNELS) sp).1)
    (hp : env.signals sp.sigCalls = env.SHUTDOWN) :
    (∃ s', captureLoop env buffer_size (fuel + 1) sc = some (E_SUCCESS, s') ∧
        s'.trace = sc.trace ++ [Event.check env.SHUTDOWN] ∧ s'.file = sc.file) ∧
    (∃ s', playbackLoop env buffer_size (fuel + 1) sp = some (E_SUCCESS, s') ∧
        s'.trace = sp.trace ++ [Event.fread (fread (buffer_size * NUM_CHANNELS) sp).1,
          Event.check env.SHUTDOWN] ∧
        s'.file = sp.file.drop (sizeof_short * (buffer_size * NUM_CHANNELS))) := by
  constructor
  · refine ⟨(check_for_signals env sc).2, captureLoop_ret ?_ fuel, ?_, rfl⟩
    · simp [captureBody, check_for_signals, hc]
    · simp [check_for_signals, hc]
  · refine ⟨(check_for_signals env (fread (buffer_size * NUM_CHANNELS) sp).2).2,
      playbackLoop_ret ?_ fuel, ?_, rfl⟩
    · have hp' : env.signals (fread (buffer_size * NUM_CHANNELS) sp).2.sigCalls
          = env.SHUTDOWN := hp
      simp [playbackBody, hread, check_for_signals, hp']
    · simp [check_for_signals, fread, hp]

/-- Witness for C4: with a shutdown request pending at entry, `capture` makes one
check and `playback` one `fread` and one check. -/
theorem shutdown_before_error_witness :
    (∃ s', captureLoop shutdownEnv 2 1 (Sys.start (zeroBuffer 8) []) = some (E_SUCCESS, s') ∧
        s'.trace = [Event.check 1] ∧ s'.file = []) ∧
    (∃ s', playbackLoop shutdownEnv 2 1 (Sys.start (zeroBuffer 8) twoFrames)
          = some (E_SUCCESS, s') ∧
        s'.trace = [Event.fread 4, Event.check 1] ∧ s'.file = []) :=
  shutdown_before_error shutdownEnv 2 0 (Sys.start (zeroBuffer 8) [])
    (Sys.start (zeroBuffer 8) twoFrames) (by decide) (by decide) (by decide)

/-- C3: when a device transfer fails and the shutdown check that follows it sees
`SHUTDOWN`, the loop returns `E_SUCCESS`; that check is the last call of the run,
so neither `snd_pcm_recover` nor `snd_pcm_prepare` is called and nothing more is
transferred. -/
theorem shutdown_preempts_recovery (env : Env) (buffer_size fuel : Nat) (sc sp : Sys)
    (hc0 : env.signals sc.sigCalls ≠ env.SHUTDOWN)
    (hcr : (env.reads sc.pcmCalls).1 < 0)
    (hc1 : env.signals (sc.sigCalls + 1) = env.SHUTDOWN)
    (hread : 0 < (fread (buffer_size * NUM_CHANNELS) sp).1)
    (hp0 : env.signals sp.sigCalls ≠ env.SHUTDOWN)
    (hpw : env.writes sp.pcmCalls < 0)
    (hp1 : env.signals (sp.sigCalls + 1) = env.SHUTDOWN) :
    (∃ s', captureLoop env buffer_size (fuel + 1) sc = some (E_SUCCESS, s') ∧
        s'.trace = sc.trace ++ [Event.check (env.signals sc.sigCalls),
          Event.readi buffer_size (env.reads sc.pcmCalls).1, Event.check env.SHUTDOWN] ∧
        s'.file = sc.file) ∧
    (∃ s', playbackLoop env buffer_size (fuel + 1) sp = some (E_SUCCESS, s') ∧
        s'.trace = sp.trace ++ [Event.fread (fread (buffer_size * NUM_CHANNELS) sp).1,
          Event.check (env.signals sp.sigCalls),
          Event.writei ((fread (buffer_size * NUM_CHANNELS) sp).1 / NUM_CHANNELS)
            ((fread (buffer_size * NUM_CHANNELS) sp).2.buffer.take
              ((fread (buffer_size * NUM_CHANNELS) sp).1 / NUM_CHANNELS
                * NUM_CHANNELS * sizeof_short))
            (env.writes sp.pcmCalls),
          Event.check env.SHUTDOWN] ∧
        s'.file = sp.file.drop (sizeof_short * (buffer_size * NUM_CHANNELS))) := by
  constructor
  · refine ⟨(check_for_signals env
        (snd_pcm_readi env buffer_size (check_for_signals env sc).2).2).2,
      captureLoop_ret ?_ fuel, ?_, ?_⟩
    · simp only [captureBody, captureRead, check_for_signals, snd_pcm_readi, hc0, hcr, hc1,
        if_true, if_false]
    · simp [check_for_signals, snd_pcm_readi, hc1]
    · simp [check_for_signals, snd_pcm_readi]
  · refine ⟨(check_for_signals env
        (snd_pcm_writei env ((fread (buffer_size * NUM_CHANNELS) sp).1 / NUM_CHANNELS)
          (check_for_signals env (fread (buffer_size * NUM_CHANNELS) sp).2).2).2).2,
      playbackLoop_ret ?_ fuel, ?_, ?_⟩
    · simp only [playbackBody, hread, if_true]
      simp only [playbackWrite, check_for_signals, snd_pcm_writei, fread, hp0, hpw, hp1,
        if_true, if_false]
    · simp [check_for_signals, snd_pcm_writei, hp1, fread]
    · simp [check_for_signals, snd_pcm_writei, fread]

/-- Witness for C3: the first transfer fails with `-EPIPE` and the check after
it sees the shutdown request. -/
theorem shutdown_preempts_recovery_witness :
    (∃ s', captureLoop errorThenShutdownEnv 2 1 (Sys.start (zeroBuffer 8) [])
          = some (E_SUCCESS, s') ∧
        s'.trace = [Event.check 0, Event.readi 2 (-32), Event.check 1] ∧ s'.file = []) ∧
    (∃ s', playbackLoop errorThenShutdownEnv 2 1 (Sys.start (zeroBuffer 8) twoFrames)
          = some (E_SUCCESS, s') ∧
        s'.trace = [Event.fread 4, Event.check 0, Event.writei 2 twoFrames (-32),
          Event.check 1] ∧
        s'.file = []) :=
  shutdown_preempts_recovery errorThenShutdownEnv 2 0 (Sys.start (zeroBuffer 8) [])
    (Sys.start (zeroBuffer 8) twoFrames) (by decide) (by decide) (by decide) (by decide)
    (by decide) (by decide) (by decide)

/-! ## End of input (claim C7) -/

/-- C7: when the `fread` of a pass of `playback` returns zero shorts, the loop
ends and the result is `E_SUCCESS`; the `fread` is the only call of the pass, so
there is no device write, no reset and no shutdown check.  For an empty file
this is the whole run of `playback` with non-`NULL` handle and buffer. -/
theorem end_of_input_is_success (env : Env) (buffer_size fuel : Nat) (s : Sys)
    (buf : List Byte) (hzero : (fread (buffer_size * NUM_CHANNELS) s).1 = 0) :
    (∃ s', playbackLoop env buffer_size (fuel + 1) s = some (E_SUCCESS, s') ∧
        s'.trace = s.trace ++ [Event.fread 0]) ∧
    (∃ s', playback env (some ()) (some buf) buffer_size [] (fuel + 1)
          = some (E_SUCCESS, s') ∧
        s'.trace = [Event.fread 0]) := by
  have key : ∀ t : Sys, (fread (buffer_size * NUM_CHANNELS) t).1 = 0 →
      playbackBody env buffer_size t
        = Step.ret E_SUCCESS (fread (buffer_size * NUM_CHANNELS) t).2 := by
    intro t ht
    simp [playbackBody, ht]
  constructor
  · refine ⟨(fread (buffer_size * NUM_CHANNELS) s).2, playbackLoop_ret (key s hzero) fuel, ?_⟩
    show s.trace ++ [Event.fread (fread (buffer_size * NUM_CHANNELS) s).1]
      = s.trace ++ [Event.fread 0]
    rw [hzero]
  · have hstart : (fread (buffer_size * NUM_CHANNELS) (Sys.start buf [])).1 = 0 := by
      simp [fread, Sys.start]
    refine ⟨(fread (buffer_size * NUM_CHANNELS) (Sys.start buf [])).2, ?_, ?_⟩
    · exact playbackLoop_ret (key _ hstart) fuel
    · simp [fread, Sys.start]

/-- Witness for C7: a file holding a single byte has no whole short left, and an
empty file has none either. -/
theorem end_of_input_is_success_witness :
    (∃ s', playbackLoop quietEnv FRAMES 1 (Sys.start (zeroBuffer 8) [7])
          = some (E_SUCCESS, s') ∧
        s'.trace = [Event.fread 0]) ∧
    (∃ s', playback quietEnv (some ()) (some (zeroBuffer 8)) FRAMES [] 1
          = some (E_SUCCESS, s') ∧
        s'.trace = [Event.fread 0]) :=
  end_of_input_is_success quietEnv FRAMES 0 (Sys.start (zeroBuffer 8) [7]) (zeroBuffer 8)
    (by decide)

/-! ## Failed recovery (claims C5, C6) -/

/-- C5, the claim fails: in `capture` the first read fails with `-EPIPE`,
`snd_pcm_recover` fails as well and no shutdown is requested, yet the loop does
not return: `snd_pcm_prepare` succeeds, the next pass reads a frame and writes
it to the file, and the run ends with `E_SUCCESS` when the shutdown request
arrives. -/
theorem failed_recovery_not_fatal :
    (capture (brokenPipeEnv 0) (some ()) (some (zeroBuffer 8)) 2 [] 3).map
        (fun r => (r.1, r.2.file, r.2.trace))
      = some (E_SUCCESS, [1, 2, 3, 4],
          [Event.check 0, Event.readi 2 (-32), Event.check 0, Event.recover (-32) (-32),
           Event.check 0, Event.prepare 0,
           Event.check 0, Event.readi 2 1, Event.fwrite [1, 2, 3, 4] 2,
           Event.check 1]) := by
  decide

/-- C5 as amended: when the transfer fails, `snd_pcm_recover` fails too and no
shutdown check sees `SHUTDOWN`, the loop calls `snd_pcm_prepare` once.  If that
call returns a non-zero value the loop returns this value and the call is the
last of the run (nothing more is transferred); if it returns zero the pass ends
and the loop goes round again. -/
theorem failed_recovery_then_prepare (env : Env) (buffer_size fuel : Nat) (sc sp : Sys)
    (hc0 : env.signals sc.sigCalls ≠ env.SHUTDOWN)
    (hcr : (env.reads sc.pcmCalls).1 < 0)
    (hc1 : env.signals (sc.sigCalls + 1) ≠ env.SHUTDOWN)
    (hcv : env.recovers sc.recCalls < 0)
    (hc2 : env.signals (sc.sigCalls + 2) ≠ env.SHUTDOWN)
    (hread : 0 < (fread (buffer_size * NUM_CHANNELS) sp).1)
    (hp0 : env.signals sp.sigCalls ≠ env.SHUTDOWN)
    (hpw : env.writes sp.pcmCalls < 0)
    (hp1 : env.signals (sp.sigCalls + 1) ≠ env.SHUTDOWN)
    (hpv : env.recovers sp.recCalls < 0)
    (hp2 : env.signals (sp.sigCalls + 2) ≠ env.SHUTDOWN) :
    (∃ s', s'.trace = sc.trace ++ [Event.check (env.signals sc.sigCalls),
          Event.readi buffer_size (env.reads sc.pcmCalls).1,
          Event.check (env.signals (sc.sigCalls + 1)),
          Event.recover (env.reads sc.pcmCalls).1 (env.recovers sc.recCalls),
          Event.check (env.signals (sc.sigCalls + 2)),
          Event.prepare (env.prepares sc.prepCalls)] ∧
        s'.file = sc.file ∧
        (env.prepares sc.prepCalls ≠ 0 →
          captureLoop env buffer_size (fuel + 1) sc = some (env.prepares sc.prepCalls, s')) ∧
        (env.prepares sc.prepCalls = 0 → captureBody env buffer_size sc = Step.next s')) ∧
    (∃ s', s'.trace = sp.trace ++ [Event.fread (fread (buffer_size * NUM_CHANNELS) sp).1,
          Event.check (env.signals sp.sigCalls),
          Event.writei ((fread (buffer_size * NUM_CHANNELS) sp).1 / NUM_CHANNELS)
            ((fread (buffer_size * NUM_CHANNELS) sp).2.buffer.take
              ((fread (buffer_size * NUM_CHANNELS) sp).1 / NUM_CHANNELS
                * NUM_CHANNELS * sizeof_short))
            (env.writes sp.pcmCalls),
          Event.check (env.signals (sp.sigCalls + 1)),
          Event.recover (env.writes sp.pcmCalls) (env.recovers sp.recCalls),
          Event.check (env.signals (sp.sigCalls + 2)),
          Event.prepare (env.prepares sp.prepCalls)] ∧
        s'.file = sp.file.drop (sizeof_short * (buffer_size * NUM_CHANNELS)) ∧
        (env.prepares sp.prepCalls ≠ 0 →
          playbackLoop env buffer_size (fuel + 1) sp = some (env.prepares sp.prepCalls, s')) ∧
        (env.prepares sp.prepCalls = 0 → playbackBody env buffer_size sp = Step.next s')) := by
  constructor
  · refine ⟨(snd_pcm_prepare env (check_for_signals env
        (snd_pcm_recover env (env.reads sc.pcmCalls).1 (check_for_signals env
          (snd_pcm_readi env buffer_size (check_for_signals env sc).2).2).2).2).2).2,
      ?_, ?_, ?_, ?_⟩
    · simp [check_for_signals, snd_pcm_readi, snd_pcm_recover, snd_pcm_prepare]
    · simp [check_for_signals, snd_pcm_readi, snd_pcm_recover, snd_pcm_prepare]
    · intro hprep
      refine captureLoop_ret ?_ fuel
      simp only [captureBody, captureRead, captureTail, check_for_signals, snd_pcm_readi,
        snd_pcm_recover, snd_pcm_prepare, E_SUCCESS, hc0, hcr, hc1, hcv, hc2, hprep,
        if_true, if_false, ne_eq, not_false_eq_true]
    · intro hprep
      simp only [captureBody, captureRead, captureTail, check_for_signals, snd_pcm_readi,
        snd_pcm_recover, snd_pcm_prepare, E_SUCCESS, hc0, hcr, hc1, hcv, hc2, hprep,
        if_true, if_false, ne_eq, not_true_eq_false]
  · refine ⟨(snd_pcm_prepare env (check_for_signals env
        (snd_pcm_recover env (env.writes sp.pcmCalls) (check_for_signals env
          (snd_pcm_writei env ((fread (buffer_size * NUM_CHANNELS) sp).1 / NUM_CHANNELS)
            (check_for_signals env
              (fread (buffer_size * NUM_CHANNELS) sp).2).2).2).2).2).2).2,
      ?_, ?_, ?_, ?_⟩
    · simp [check_for_signals, snd_pcm_writei, snd_pcm_recover, snd_pcm_prepare, fread]
    · simp [check_for_signals, snd_pcm_writei, snd_pcm_recover, snd_pcm_prepare, fread]
    · intro hprep
      refine playbackLoop_ret ?_ fuel
      simp only [playbackBody, hread, if_true]
      simp only [playbackWrite, playbackTail, check_for_signals, snd_pcm_writei,
        snd_pcm_recover, snd_pcm_prepare, fread, E_SUCCESS, hp0, hpw, hp1, hpv, hp2, hprep,
        if_true, if_false, ne_eq, not_false_eq_true]
    · intro hprep
      simp only [playbackBody, hread, if_true]
      simp only [playbackWrite, playbackTail, check_for_signals, snd_pcm_writei,
        snd_pcm_recover, snd_pcm_prepare, fread, E_SUCCESS, hp0, hpw, hp1, hpv, hp2, hprep,
        if_true, if_false, ne_eq, not_true_eq_false]

/-- Witness for C5 as amended: both resets fail, `snd_pcm_prepare` with
`-ENODEV`, which is the exit code of both loops. -/
theorem failed_recovery_then_prepare_witness :
    (∃ s', s'.trace = [Event.check 0, Event.readi 2 (-32), Event.check 0,
          Event.recover (-32) (-32), Event.check 0, Event.prepare (-19)] ∧
        s'.file = [] ∧
        ((-19 : Int) ≠ 0 →
          captureLoop (brokenPipeEnv (-19)) 2 1 (Sys.start (zeroBuffer 8) [])
            = some (-19, s')) ∧
        ((-19 : Int) = 0 →
          captureBody (brokenPipeEnv (-19)) 2 (Sys.start (zeroBuffer 8) [])
            = Step.next s')) ∧
    (∃ s', s'.trace = [Event.fread 4, Event.check 0, Event.writei 2 twoFrames (-32),
          Event.check 0, Event.recover (-32) (-32), Event.check 0, Event.prepare (-19)] ∧
        s'.file = [] ∧
        ((-19 : Int) ≠ 0 →
          playbackLoop (brokenPipeEnv (-19)) 2 1 (Sys.start (zeroBuffer 8) twoFrames)
            = some (-19, s')) ∧
        ((-19 : Int) = 0 →
          playbackBody (brokenPipeEnv (-19)) 2 (Sys.start (zeroBuffer 8) twoFrames)
            = Step.next s')) :=
  failed_recovery_then_prepare (brokenPipeEnv (-19)) 2 0 (Sys.start (zeroBuffer 8) [])
    (Sys.start (zeroBuffer 8) twoFrames) (by decide) (by decide) (by decide) (by decide)
    (by decide) (by decide) (by decide) (by decide) (by decide) (by decide) (by decide)

/-- C6, the claim fails: one failed read in `capture`, no shutdown, and
`snd_pcm_recover` fails: the pass makes two reset calls for this one error,
`snd_pcm_recover` and then `snd_pcm_prepare`. -/
theorem second_reset_after_failed_recovery :
    (captureBody (brokenPipeEnv 0) 2 (Sys.start (zeroBuffer 8) [])).sys.trace
      = [Event.check 0, Event.readi 2 (-32), Event.check 0, Event.recover (-32) (-32),
         Event.check 0, Event.prepare 0] ∧
    deviceErrors (captureBody (brokenPipeEnv 0) 2 (Sys.start (zeroBuffer 8) [])).sys.trace = 1 ∧
    resetCalls (captureBody (brokenPipeEnv 0) 2 (Sys.start (zeroBuffer 8) [])).sys.trace = 2 := by
  decide

/-- C6 as amended: for a failed transfer whose following check does not see
`SHUTDOWN`, the pass calls `snd_pcm_recover` exactly once and `snd_pcm_prepare`
at most once.  If `snd_pcm_recover` returns a non-negative value it is the only
reset call of the pass; if it returns a negative value and the next check does
not see `SHUTDOWN`, exactly one `snd_pcm_prepare` call follows and ends the
pass. -/
theorem one_recover_per_error (env : Env) (buffer_size : Nat) (sc sp : Sys)
    (hc0 : env.signals sc.sigCalls ≠ env.SHUTDOWN)
    (hcr : (env.reads sc.pcmCalls).1 < 0)
    (hc1 : env.signals (sc.sigCalls + 1) ≠ env.SHUTDOWN)
    (hread : 0 < (fread (buffer_size * NUM_CHANNELS) sp).1)
    (hp0 : env.signals sp.sigCalls ≠ env.SHUTDOWN)
    (hpw : env.writes sp.pcmCalls < 0)
    (hp1 : env.signals (sp.sigCalls + 1) ≠ env.SHUTDOWN) :
    ((captureBody env buffer_size sc).sys.recCalls = sc.recCalls + 1 ∧
      (captureBody env buffer_size sc).sys.prepCalls ≤ sc.prepCalls + 1 ∧
      (0 ≤ env.recovers sc.recCalls →
        (captureBody env buffer_size sc).sys.trace
          = sc.trace ++ [Event.check (env.signals sc.sigCalls),
              Event.readi buffer_size (env.reads sc.pcmCalls).1,
              Event.check (env.signals (sc.sigCalls + 1)),
              Event.recover (env.reads sc.pcmCalls).1 (env.recovers sc.recCalls),
              Event.fwrite ((store (env.reads sc.pcmCalls).2 sc.buffer).take
                  (sizeof_short * (env.recovers sc.recCalls * NUM_CHANNELS).toNat))
                (min (env.recovers sc.recCalls * NUM_CHANNELS).toNat
                  (env.fwrites sc.fwCalls))]) ∧
      (env.recovers sc.recCalls < 0 → env.signals (sc.sigCalls + 2) ≠ env.SHUTDOWN →
        (captureBody env buffer_size sc).sys.trace
          = sc.trace ++ [Event.check (env.signals sc.sigCalls),
              Event.readi buffer_size (env.reads sc.pcmCalls).1,
              Event.check (env.signals (sc.sigCalls + 1)),
              Event.recover (env.reads sc.pcmCalls).1 (env.recovers sc.recCalls),
              Event.check (env.signals (sc.sigCalls + 2)),
              Event.prepare (env.prepares sc.prepCalls)])) ∧
    ((playbackBody env buffer_size sp).sys.recCalls = sp.recCalls + 1 ∧
      (playbackBody env buffer_size sp).sys.prepCalls ≤ sp.prepCalls + 1 ∧
      (0 ≤ env.recovers sp.recCalls →
        (playbackBody env buffer_size sp).sys.trace
          = sp.trace ++ [Event.fread (fread (buffer_size * NUM_CHANNELS) sp).1,
              Event.check (env.signals sp.sigCalls),
              Event.writei ((fread (buffer_size * NUM_CHANNELS) sp).1 / NUM_CHANNELS)
                ((fread (buffer_size * NUM_CHANNELS) sp).2.buffer.take
                  ((fread (buffer_size * NUM_CHANNELS) sp).1 / NUM_CHANNELS
                    * NUM_CHANNELS * sizeof_short))
                (env.writes sp.pcmCalls),
              Event.check (env.signals (sp.sigCalls + 1)),
              Event.recover (env.writes sp.pcmCalls) (env.recovers sp.recCalls)]) ∧
      (env.recovers sp.recCalls < 0 → env.signals (sp.sigCalls + 2) ≠ env.SHUTDOWN →
        (playbackBody env buffer_size sp).sys.trace
          = sp.trace ++ [Event.fread (fread (buffer_size * NUM_CHANNELS) sp).1,
              Event.check (env.signals sp.sigCalls),
              Event.writei ((fread (buffer_size * NUM_CHANNELS) sp).1 / NUM_CHANNELS)
                ((fread (buffer_size * NUM_CHANNELS) sp).2.buffer.take
                  ((fread (buffer_size * NUM_CHANNELS) sp).1 / NUM_CHANNELS
                    * NUM_CHANNELS * sizeof_short))
                (env.writes sp.pcmCalls),
              Event.check (env.signals (sp.sigCalls + 1)),
              Event.recover (env.writes sp.pcmCalls) (env.recovers sp.recCalls),
              Event.check (env.signals (sp.sigCalls + 2)),
              Event.prepare (env.prepares sp.prepCalls)])) := by
  have hc : captureBody env buffer_size sc
      = captureTail env (env.recovers sc.recCalls)
          (snd_pcm_recover env (env.reads sc.pcmCalls).1 (check_for_signals env
            (snd_pcm_readi env buffer_size (check_for_signals env sc).2).2).2).2 := by
    simp only [captureBody, captureRead, check_for_signals, snd_pcm_readi, snd_pcm_recover,
      hc0, hcr, hc1, if_true, if_false]
  have hp : playbackBody env buffer_size sp
      = playbackTail env (env.recovers sp.recCalls)
          (snd_pcm_recover env (env.writes sp.pcmCalls) (check_for_signals env
            (snd_pcm_writei env ((fread (buffer_size * NUM_CHANNELS) sp).1 / NUM_CHANNELS)
              (check_for_signals env
                (fread (buffer_size * NUM_CHANNELS) sp).2).2).2).2).2 := by
    simp only [playbackBody, hread, if_true]
    simp only [playbackWrite, check_for_signals, snd_pcm_writei, snd_pcm_recover, fread,
      hp0, hpw, hp1, if_true, if_false]
  rw [hc, hp]
  refine ⟨⟨?_, ?_, ?_, ?_⟩, ⟨?_, ?_, ?_, ?_⟩⟩
  · unfold captureTail
    split_ifs <;>
      simp [Step.sys, fwrite, check_for_signals, snd_pcm_readi, snd_pcm_recover,
        snd_pcm_prepare]
  · unfold captureTail
    split_ifs <;>
      simp [Step.sys, fwrite, check_for_signals, snd_pcm_readi, snd_pcm_recover,
        snd_pcm_prepare]
  · intro hr
    simp [captureTail, not_lt.mpr hr, Step.sys, fwrite, check_for_signals, snd_pcm_readi,
      snd_pcm_recover]
  · intro hr h2
    unfold captureTail
    simp only [hr, if_true, check_for_signals, snd_pcm_readi, snd_pcm_recover, h2, if_false]
    split_ifs <;> simp [Step.sys, snd_pcm_prepare]
  · unfold playbackTail
    split_ifs <;>
      simp [Step.sys, check_for_signals, snd_pcm_writei, snd_pcm_recover,
        snd_pcm_prepare, fread]
  · unfold playbackTail
    split_ifs <;>
      simp [Step.sys, check_for_signals, snd_pcm_writei, snd_pcm_recover,
        snd_pcm_prepare, fread]
  · intro hr
    simp [playbackTail, not_lt.mpr hr, Step.sys, check_for_signals, snd_pcm_writei,
      snd_pcm_recover, fread]
  · intro hr h2
    unfold playbackTail
    simp only [hr, if_true, check_for_signals, snd_pcm_writei, snd_pcm_recover, fread, h2,
      if_false]
    split_ifs <;> simp [Step.sys, snd_pcm_prepare]

/-- Witness for C6 as amended: the transfer fails, `snd_pcm_recover` fails, and
one `snd_pcm_prepare` call ends the pass. -/
theorem one_recover_per_error_witness :
    (captureBody (brokenPipeEnv 0) 2 (Sys.start (zeroBuffer 8) [])).sys.trace
      = [Event.check 0, Event.readi 2 (-32), Event.check 0, Event.recover (-32) (-32),
         Event.check 0, Event.prepare 0] ∧
    (playbackBody (brokenPipeEnv 0) 2 (Sys.start (zeroBuffer 8) twoFrames)).sys.trace
      = [Event.fread 4, Event.check 0, Event.writei 2 twoFrames (-32), Event.check 0,
         Event.recover (-32) (-32), Event.check 0, Event.prepare 0] :=
  ⟨(one_recover_per_error (brokenPipeEnv 0) 2 (Sys.start (zeroBuffer 8) [])
      (Sys.start (zeroBuffer 8) twoFrames) (by decide) (by decide) (by decide) (by decide)
      (by decide) (by decide) (by decide)).1.2.2.2 (by decide) (by decide),
   (one_recover_per_error (brokenPipeEnv 0) 2 (Sys.start (zeroBuffer 8) [])
      (Sys.start (zeroBuffer 8) twoFrames) (by decide) (by decide) (by decide) (by decide)
      (by decide) (by decide) (by decide)).2.2.2.2 (by decide) (by decide)⟩

/-! ## The exit code (claim C10) -/

theorem noFatalPrepare_nil : noFatalPrepare [] := by
  intro p hp
  simp at hp

theorem noFatalPrepare_append {t u : List Event} (ht : noFatalPrepare t)
    (hu : ∀ p, Event.prepare p ∈ u → p = 0) : noFatalPrepare (t ++ u) := by
  intro p hp
  rcases List.mem_append.mp hp with h | h
  · exact ht p h
  · exact hu p h

theorem captureBody_fatal (env : Env) (bs : Nat) (s : Sys) (hinv : noFatalPrepare s.trace) :
    (∀ s', captureBody env bs s = Step.next s' → noFatalPrepare s'.trace) ∧
    (∀ c s', captureBody env bs s = Step.ret c s' →
      (c = 0 ∧ noFatalPrepare s'.trace) ∨
      (c ≠ 0 ∧ ∃ v0 n v1 r v2,
        s'.trace = s.trace ++ [Event.check v0, Event.readi bs n, Event.check v1,
          Event.recover n r, Event.check v2, Event.prepare c] ∧
        n < 0 ∧ v1 ≠ env.SHUTDOWN ∧ r < 0 ∧ v2 ≠ env.SHUTDOWN)) := by
  rw [captureBody_eq]
  constructor
  · intro s' h
    split_ifs at h <;>
      simp only [Step.next.injEq, reduceCtorEq] at h <;>
      subst h <;>
      refine noFatalPrepare_append hinv ?_ <;>
      intro p hp <;>
      simp at hp
    rw [hp]; assumption
  · intro c s' h
    split_ifs at h <;>
      simp only [Step.ret.injEq, reduceCtorEq] at h <;>
      obtain ⟨hc, hs⟩ := h <;>
      subst hc <;> subst hs
    · exact Or.inl ⟨rfl, noFatalPrepare_append hinv (by intro p hp; simp at hp)⟩
    · exact Or.inl ⟨rfl, noFatalPrepare_append hinv (by intro p hp; simp at hp)⟩
    · exact Or.inl ⟨rfl, noFatalPrepare_append hinv (by intro p hp; simp at hp)⟩
    · right
      rename_i h0 hn h1 hr h2 hp
      exact ⟨hp, _, _, _, _, _, rfl, not_le.mp hn, h1, not_le.mp hr, h2⟩

theorem captureLoop_fatal (env : Env) (bs : Nat) :
    ∀ (fuel : Nat) (s : Sys) (c : Int) (s' : Sys), noFatalPrepare s.trace →
      captureLoop env bs fuel s = some (c, s') →
      (c = 0 ∧ noFatalPrepare s'.trace) ∨
      (c ≠ 0 ∧ ∃ pre v0 n v1 r v2, noFatalPrepare pre ∧
        s'.trace = pre ++ [Event.check v0, Event.readi bs n, Event.check v1,
          Event.recover n r, Event.check v2, Event.prepare c] ∧
        n < 0 ∧ v1 ≠ env.SHUTDOWN ∧ r < 0 ∧ v2 ≠ env.SHUTDOWN) := by
  intro fuel
  induction fuel with
  | zero => intro s c s' _ h; simp [captureLoop] at h
  | succ k ih =>
    intro s c s' hinv h
    cases hb : captureBody env bs s with
    | next t =>
      rw [captureLoop_next hb] at h
      exact ih t c s' ((captureBody_fatal env bs s hinv).1 t hb) h
    | ret c0 t =>
      rw [captureLoop_ret hb] at h
      simp only [Option.some.injEq, Prod.mk.injEq] at h
      obtain ⟨h1, h2⟩ := h
      subst h1; subst h2
      rcases (captureBody_fatal env bs s hinv).2 _ _ hb with h | ⟨hne, v0, n, v1, r, v2, h⟩
      · exact Or.inl h
      · exact Or.inr ⟨hne, s.trace, v0, n, v1, r, v2, hinv, h⟩

theorem playbackBody_fatal (env : Env) (bs : Nat) (s : Sys) (hinv : noFatalPrepare s.trace) :
    (∀ s', playbackBody env bs s = Step.next s' → noFatalPrepare s'.trace) ∧
    (∀ c s', playbackBody env bs s = Step.ret c s' →
      (c = 0 ∧ noFatalPrepare s'.trace) ∨
      (c ≠ 0 ∧ ∃ k v0 size data n v1 r v2,
        s'.trace = s.trace ++ [Event.fread k, Event.check v0, Event.writei size data n,
          Event.check v1, Event.recover n r, Event.check v2, Event.prepare c] ∧
        n < 0 ∧ v1 ≠ env.SHUTDOWN ∧ r < 0 ∧ v2 ≠ env.SHUTDOWN)) := by
  rw [playbackBody_eq]
  have hfread : noFatalPrepare (fread (bs * NUM_CHANNELS) s).2.trace :=
    noFatalPrepare_append hinv (by intro p hp; simp at hp)
  constructor
  · intro s' h
    split_ifs at h <;>
      simp only [Step.next.injEq, reduceCtorEq] at h <;>
      subst h <;>
      refine noFatalPrepare_append hinv ?_ <;>
      intro p hp <;>
      simp at hp
    rw [hp]; assumption
  · intro c s' h
    split_ifs at h <;>
      simp only [Step.ret.injEq, reduceCtorEq] at h <;>
      obtain ⟨hc, hs⟩ := h <;>
      subst hc <;> subst hs
    · exact Or.inl ⟨rfl, hfread⟩
    · exact Or.inl ⟨rfl, noFatalPrepare_append hinv (by intro p hp; simp at hp)⟩
    · exact Or.inl ⟨rfl, noFatalPrepare_append hinv (by intro p hp; simp at hp)⟩
    · exact Or.inl ⟨rfl, noFatalPrepare_append hinv (by intro p hp; simp at hp)⟩
    · right
      rename_i hk h0 hn h1 hr h2 hp
      exact ⟨hp, _, _, _, _, _, _, _, _, rfl, not_le.mp hn, h1, not_le.mp hr, h2⟩

theorem playbackLoop_fatal (env : Env) (bs : Nat) :
    ∀ (fuel : Nat) (s : Sys) (c : Int) (s' : Sys), noFatalPrepare s.trace →
      playbackLoop env bs fuel s = some (c, s') →
      (c = 0 ∧ noFatalPrepare s'.trace) ∨
      (c ≠ 0 ∧ ∃ pre k v0 size data n v1 r v2, noFatalPrepare pre ∧
        s'.trace = pre ++ [Event.fread k, Event.check v0, Event.writei size data n,
          Event.check v1, Event.recover n r, Event.check v2, Event.prepare c] ∧
        n < 0 ∧ v1 ≠ env.SHUTDOWN ∧ r < 0 ∧ v2 ≠ env.SHUTDOWN) := by
  intro fuel
  induction fuel with
  | zero => intro s c s' _ h; simp [playbackLoop] at h
  | succ k ih =>
    intro s c s' hinv h
    cases hb : playbackBody env bs s with
    | next t =>
      rw [playbackLoop_next hb] at h
      exact ih t c s' ((playbackBody_fatal env bs s hinv).1 t hb) h
    | ret c0 t =>
      rw [playbackLoop_ret hb] at h
      simp only [Option.some.injEq, Prod.mk.injEq] at h
      obtain ⟨h1, h2⟩ := h
      subst h1; subst h2
      rcases (playbackBody_fatal env bs s hinv).2 _ _ hb with
        h | ⟨hne, k, v0, sz, d, n, v1, r, v2, h⟩
      · exact Or.inl h
      · exact Or.inr ⟨hne, s.trace, k, v0, sz, d, n, v1, r, v2, hinv, h⟩

/-- A failed `snd_pcm_prepare` in a trace whose last call is the only one that
may have failed is that last call. -/
theorem prepare_mem_last {pre : List Event} (mid : List Event) {p c : Int} (hpre : noFatalPrepare pre)
    (hmid : ∀ q, Event.prepare q ∈ mid → False)
    (hp : p ≠ 0) (hmem : Event.prepare p ∈ pre ++ (mid ++ [Event.prepare c])) : p = c := by
  rcases List.mem_append.mp hmem with h | h
  · exact absurd (hpre p h) hp
  · rcases List.mem_append.mp h with h | h
    · exact absurd h (hmid p)
    · simpa using h

/-- A pass of `playback` that goes round again has consumed at least one short
of the file. -/
theorem playbackBody_next_file (env : Env) (bs : Nat) (s t : Sys)
    (h : playbackBody env bs s = Step.next t) : t.file.length + 2 ≤ s.file.length := by
  rw [playbackBody_eq] at h
  have hdrop : ∀ u : Sys, (fread (bs * NUM_CHANNELS) s).1 ≠ 0 →
      u.file = (fread (bs * NUM_CHANNELS) s).2.file → u.file.length + 2 ≤ s.file.length := by
    intro u h0 hu
    rw [hu]
    simp only [fread, List.length_take, List.length_drop, sizeof_short, NUM_CHANNELS] at *
    omega
  split_ifs at h with h0 <;> simp only [Step.next.injEq, reduceCtorEq] at h <;>
    exact hdrop t h0 (by rw [← h])

/-- The loop of `playback` returns in every environment: the file gets shorter
with every pass. -/
theorem playbackLoop_total (env : Env) (bs : Nat) :
    ∀ (m : Nat) (s : Sys) (fuel : Nat), s.file.length ≤ m → m < fuel →
      ∃ r, playbackLoop env bs fuel s = some r := by
  intro m
  induction m with
  | zero =>
    intro s fuel hlen hfuel
    obtain ⟨f, rfl⟩ : ∃ f, fuel = f + 1 := ⟨fuel - 1, by omega⟩
    cases hb : playbackBody env bs s with
    | next t =>
      have := playbackBody_next_file env bs s t hb
      omega
    | ret c t => exact ⟨_, playbackLoop_ret hb f⟩
  | succ m ih =>
    intro s fuel hlen hfuel
    obtain ⟨f, rfl⟩ : ∃ f, fuel = f + 1 := ⟨fuel - 1, by omega⟩
    cases hb : playbackBody env bs s with
    | next t =>
      have := playbackBody_next_file env bs s t hb
      rw [playbackLoop_next hb]
      exact ih t f (by omega) (by omega)
    | ret c t => exact ⟨_, playbackLoop_ret hb f⟩

/-- C10: with non-`NULL` handle and buffer, a terminating run of `capture` (of
`playback`) has a non-zero exit code exactly when its trace holds a pass in which
the transfer failed, `snd_pcm_recover` failed, `snd_pcm_prepare` returned a
non-zero value and neither shutdown check in between saw `SHUTDOWN`; the exit
code is then the value `snd_pcm_prepare` returned, and it is `E_SUCCESS` in
every other terminating run.  The two runs are independent: `capture` runs in
the environment `envc` and `playback` in `envp`; a run of `playback` returns in
every environment once the fuel exceeds the length of the file. -/
theorem nonzero_exit_iff_prepare_failed (envc envp : Env)
    (bufc bufp filec filep : List Byte)
    (bsc bsp fuelc fuelp : Nat) (cc cp : Int) (sc sp : Sys)
    (hc : capture envc (some ()) (some bufc) bsc filec fuelc = some (cc, sc))
    (hp : playback envp (some ()) (some bufp) bsp filep fuelp = some (cp, sp)) :
    ((cc ≠ 0 ↔ ∃ p, CaptureFatal envc sc.trace p) ∧
      (∀ p, CaptureFatal envc sc.trace p → cc = p) ∧
      ((¬ ∃ p, CaptureFatal envc sc.trace p) → cc = E_SUCCESS)) ∧
    ((cp ≠ 0 ↔ ∃ p, PlaybackFatal envp sp.trace p) ∧
      (∀ p, PlaybackFatal envp sp.trace p → cp = p) ∧
      ((¬ ∃ p, PlaybackFatal envp sp.trace p) → cp = E_SUCCESS) ∧
      (∀ fuel, filep.length < fuel →
        ∃ r, playback envp (some ()) (some bufp) bsp filep fuel = some r)) := by
  have hcl := captureLoop_fatal envc bsc fuelc (Sys.start bufc filec) cc sc
    noFatalPrepare_nil hc
  have hpl := playbackLoop_fatal envp bsp fuelp (Sys.start bufp filep) cp sp
    noFatalPrepare_nil hp
  constructor
  · have hval : ∀ p, CaptureFatal envc sc.trace p → cc = p ∧ cc ≠ 0 := by
      rintro p ⟨pre, post, size, n, v1, e, r, v2, ht, -, -, -, -, hp0⟩
      have hmem : Event.prepare p ∈ sc.trace := by
        rw [ht]; simp
      rcases hcl with ⟨_, hno⟩ | ⟨hne, pre', v0', n', v1', r', v2', hpre, ht', -⟩
      · exact absurd (hno p hmem) hp0
      · rw [ht'] at hmem
        have := prepare_mem_last [Event.check v0', Event.readi bsc n', Event.check v1',
          Event.recover n' r', Event.check v2'] hpre (by intro q hq; simp at hq) hp0
          (by simpa using hmem)
        exact ⟨this.symm, hne⟩
    have hex : cc ≠ 0 → ∃ p, CaptureFatal envc sc.trace p := by
      intro hne
      rcases hcl with ⟨h0, _⟩ | ⟨_, pre', v0', n', v1', r', v2', -, ht', hn, h1, hr, h2⟩
      · exact absurd h0 hne
      · exact ⟨cc, pre' ++ [Event.check v0'], [], bsc, n', v1', n', r', v2',
          by rw [ht']; simp, hn, h1, hr, h2, hne⟩
    refine ⟨⟨hex, fun ⟨p, h⟩ => (hval p h).2⟩, fun p h => (hval p h).1, ?_⟩
    intro hno
    by_contra hne
    exact hno (hex hne)
  · have hval : ∀ p, PlaybackFatal envp sp.trace p → cp = p ∧ cp ≠ 0 := by
      rintro p ⟨pre, post, size, data, n, v1, e, r, v2, ht, -, -, -, -, hp0⟩
      have hmem : Event.prepare p ∈ sp.trace := by
        rw [ht]; simp
      rcases hpl with ⟨_, hno⟩ | ⟨hne, pre', k', v0', sz', d', n', v1', r', v2', hpre, ht', -⟩
      · exact absurd (hno p hmem) hp0
      · rw [ht'] at hmem
        have := prepare_mem_last [Event.fread k', Event.check v0',
          Event.writei sz' d' n', Event.check v1', Event.recover n' r', Event.check v2']
          hpre (by intro q hq; simp at hq) hp0 (by simpa using hmem)
        exact ⟨this.symm, hne⟩
    have hex : cp ≠ 0 → ∃ p, PlaybackFatal envp sp.trace p := by
      intro hne
      rcases hpl with ⟨h0, _⟩ |
        ⟨_, pre', k', v0', sz', d', n', v1', r', v2', -, ht', hn, h1, hr, h2⟩
      · exact absurd h0 hne
      · exact ⟨cp, pre' ++ [Event.fread k', Event.check v0'], [], sz', d', n', v1', n', r', v2',
          by rw [ht']; simp, hn, h1, hr, h2, hne⟩
    refine ⟨⟨hex, fun ⟨p, h⟩ => (hval p h).2⟩, fun p h => (hval p h).1, ?_, ?_⟩
    · intro hno
      by_contra hne
      exact hno (hex hne)
    · intro fuel hfuel
      exact playbackLoop_total envp bsp filep.length (Sys.start bufp filep) fuel
        (le_refl _) hfuel
/-- Witness for C10: a run of `capture` in which both resets fail, the second
with `-ENODEV`, which is the exit code; and a run of `playback` through a file
of two frames to the end of the input, with exit code 0 and no failed reset in
the trace. -/
theorem nonzero_exit_iff_prepare_failed_witness :
    (∃ p, CaptureFatal (brokenPipeEnv (-19))
      [Event.check 0, Event.readi 2 (-32), Event.check 0, Event.recover (-32) (-32),
       Event.check 0, Event.prepare (-19)] p) ∧
    ¬ (∃ p, PlaybackFatal quietEnv
      [Event.fread 4, Event.check 0, Event.writei 2 twoFrames 0, Event.fread 0] p) :=
  ⟨(nonzero_exit_iff_prepare_failed (brokenPipeEnv (-19)) quietEnv (zeroBuffer 8)
      (zeroBuffer 8) [] twoFrames 2 2 1 2 (-19) 0
      ⟨3, 1, 1, 1, 0, zeroBuffer 8, [],
        [Event.check 0, Event.readi 2 (-32), Event.check 0, Event.recover (-32) (-32),
         Event.check 0, Event.prepare (-19)]⟩
      ⟨1, 1, 0, 0, 0, twoFrames, [],
        [Event.fread 4, Event.check 0, Event.writei 2 twoFrames 0, Event.fread 0]⟩
      (by decide) (by decide)).1.1.mp (by decide),
   fun h => ((nonzero_exit_iff_prepare_failed (brokenPipeEnv (-19)) quietEnv (zeroBuffer 8)
      (zeroBuffer 8) [] twoFrames 2 2 1 2 (-19) 0
      ⟨3, 1, 1, 1, 0, zeroBuffer 8, [],
        [Event.check 0, Event.readi 2 (-32), Event.check 0, Event.recover (-32) (-32),
         Event.check 0, Event.prepare (-19)]⟩
      ⟨1, 1, 0, 0, 0, twoFrames, [],
        [Event.fread 4, Event.check 0, Event.writei 2 twoFrames 0, Event.fread 0]⟩
      (by decide) (by decide)).2.1.mpr h) rfl⟩

/-! ## Data transfer (claims C1, C2, C8, C9) -/

theorem store_length (data buf : List Byte) : (store data buf).length = buf.length := by
  simp [store]
  omega

theorem bufferAfter_length (env : Env) (buf : List Byte) (k : Nat) :
    (bufferAfter env buf k).length = buf.length := by
  induction k with
  | zero => rfl
  | succ k ih => simp [bufferAfter, store_length, ih]

theorem readPrefix_length (env : Env) (buf : List Byte) (bs k : Nat)
    (hbuf : bs * NUM_CHANNELS * sizeof_short ≤ buf.length) (hdev : (env.reads k).1 ≤ bs) :
    (readPrefix env buf k).length = (env.reads k).1.toNat * NUM_CHANNELS * sizeof_short := by
  unfold readPrefix
  split_ifs with h
  · rw [List.length_take, bufferAfter_length]
    simp only [NUM_CHANNELS, sizeof_short] at *
    omega
  · simp only [NUM_CHANNELS, sizeof_short, List.length_nil]
    omega

theorem capturedData_length (env : Env) (buf : List Byte) (bs : Nat)
    (hbuf : bs * NUM_CHANNELS * sizeof_short ≤ buf.length) (hdev : ∀ k, (env.reads k).1 ≤ bs)
    (k : Nat) :
    (capturedData env buf k).length = framesRead env k * NUM_CHANNELS * sizeof_short := by
  induction k with
  | zero => rfl
  | succ k ih =>
    simp only [capturedData, framesRead, List.length_append, ih,
      readPrefix_length env buf bs k hbuf (hdev k)]
    ring

theorem captureBody_inv (env : Env) (buf file : List Byte) (bs : Nat) (s : Sys)
    (hdev : (env.reads s.pcmCalls).1 ≤ bs)
    (hfull : bs * NUM_CHANNELS ≤ env.fwrites s.fwCalls)
    (hrec : (env.reads s.pcmCalls).1 < 0 → env.recovers s.recCalls ≤ 0)
    (hinv : CaptureInv env buf file s) :
    CaptureInv env buf file (captureBody env bs s).sys := by
  obtain ⟨hf, hb⟩ := hinv
  have hpre : ∀ n : Int, 0 ≤ n → n ≤ bs →
      sizeof_short * min (n * NUM_CHANNELS).toNat (env.fwrites s.fwCalls)
        = n.toNat * NUM_CHANNELS * sizeof_short := by
    intro n hn hle
    simp only [NUM_CHANNELS, sizeof_short, Nat.cast_ofNat] at *
    omega
  rw [captureBody_eq]
  unfold CaptureInv
  split_ifs with h0 hn h1 hr h2 hp
  · exact ⟨hf, hb⟩
  · simp only [Step.sys, capturedData, bufferAfter, readPrefix, hf, hb, hn, if_true,
      List.append_assoc, and_true, hpre _ hn hdev]
  · simp only [Step.sys, capturedData, bufferAfter, readPrefix, hf, hb, hn, if_false,
      List.append_nil, and_self]
  · have hr0 : env.recovers s.recCalls = 0 := le_antisymm (hrec (not_le.mp hn)) hr
    simp only [Step.sys, capturedData, bufferAfter, readPrefix, hf, hb, hn, if_false,
      List.append_nil, and_true, hr0, zero_mul, Int.toNat_zero, mul_zero, List.take_zero,
      Nat.zero_min]
  · simp only [Step.sys, capturedData, bufferAfter, readPrefix, hf, hb, hn, if_false,
      List.append_nil, and_self]
  · simp only [Step.sys, capturedData, bufferAfter, readPrefix, hf, hb, hn, if_false,
      List.append_nil, and_self]
  · simp only [Step.sys, capturedData, bufferAfter, readPrefix, hf, hb, hn, if_false,
      List.append_nil, and_self]

theorem captureLoop_inv (env : Env) (buf file : List Byte) (bs : Nat)
    (hdev : ∀ i, (env.reads i).1 ≤ bs) (hfull : ∀ j, bs * NUM_CHANNELS ≤ env.fwrites j)
    (hrec : ∀ k, env.recovers k ≤ 0) :
    ∀ (fuel : Nat) (s : Sys) (c : Int) (s' : Sys), CaptureInv env buf file s →
      captureLoop env bs fuel s = some (c, s') → CaptureInv env buf file s' := by
  intro fuel
  induction fuel with
  | zero => intro s c s' _ h; simp [captureLoop] at h
  | succ k ih =>
    intro s c s' hinv h
    have hstep := captureBody_inv env buf file bs s (hdev _) (hfull _) (fun _ => hrec _) hinv
    cases hb : captureBody env bs s with
    | next t =>
      rw [captureLoop_next hb] at h
      rw [hb] at hstep
      exact ih t c s' hstep h
    | ret c0 t =>
      rw [captureLoop_ret hb] at h
      rw [hb] at hstep
      simp only [Option.some.injEq, Prod.mk.injEq] at h
      rw [← h.2]
      exact hstep

/-- A run of `capture` that returns ends at a shutdown check that saw
`SHUTDOWN`, with exit code 0, or at a failed `snd_pcm_prepare`, with its
result as exit code. -/
theorem captureLoop_end (env : Env) (bs : Nat) :
    ∀ (fuel : Nat) (s : Sys) (c : Int) (s' : Sys),
      captureLoop env bs fuel s = some (c, s') →
      (c = E_SUCCESS ∧ ∃ pre, s'.trace = pre ++ [Event.check env.SHUTDOWN]) ∨
      (c ≠ E_SUCCESS ∧ ∃ pre, s'.trace = pre ++ [Event.prepare c]) := by
  intro fuel
  induction fuel with
  | zero => intro s c s' h; simp [captureLoop] at h
  | succ k ih =>
    intro s c s' h
    cases hb : captureBody env bs s with
    | next t =>
      rw [captureLoop_next hb] at h
      exact ih t c s' h
    | ret c0 t =>
      rw [captureLoop_ret hb] at h
      simp only [Option.some.injEq, Prod.mk.injEq] at h
      obtain ⟨h1, h2⟩ := h
      subst h1; subst h2
      rw [captureBody_eq] at hb
      split_ifs at hb with h0 hn h1 hr h2 hp <;>
        simp only [Step.ret.injEq, reduceCtorEq] at hb <;>
        obtain ⟨hc, hs⟩ := hb <;> subst hc <;> subst hs
      · exact Or.inl ⟨rfl, s.trace, by simp [h0]⟩
      · exact Or.inl ⟨rfl, s.trace ++ [Event.check (env.signals s.sigCalls),
          Event.readi bs (env.reads s.pcmCalls).1], by simp [h1]⟩
      · exact Or.inl ⟨rfl, s.trace ++ [Event.check (env.signals s.sigCalls),
          Event.readi bs (env.reads s.pcmCalls).1, Event.check (env.signals (s.sigCalls + 1)),
          Event.recover (env.reads s.pcmCalls).1 (env.recovers s.recCalls)], by simp [h2]⟩
      · exact Or.inr ⟨hp, s.trace ++ [Event.check (env.signals s.sigCalls),
          Event.readi bs (env.reads s.pcmCalls).1, Event.check (env.signals (s.sigCalls + 1)),
          Event.recover (env.reads s.pcmCalls).1 (env.recovers s.recCalls),
          Event.check (env.signals (s.sigCalls + 2))], by simp⟩

theorem captureBody_read_ok (env : Env) (bs : Nat) (s : Sys)
    (h0 : env.signals s.sigCalls ≠ env.SHUTDOWN) (hn : 0 ≤ (env.reads s.pcmCalls).1) :
    ∃ t, captureBody env bs s = Step.next t ∧ t.sigCalls = s.sigCalls + 1 ∧
      t.pcmCalls = s.pcmCalls + 1 := by
  rw [captureBody_eq, if_neg h0, if_pos hn]
  exact ⟨_, rfl, rfl, rfl⟩

theorem captureBody_shutdown (env : Env) (bs : Nat) (s : Sys)
    (h0 : env.signals s.sigCalls = env.SHUTDOWN) :
    ∃ t, captureBody env bs s = Step.ret E_SUCCESS t ∧ t.pcmCalls = s.pcmCalls ∧
      t.file = s.file ∧ t.buffer = s.buffer := by
  rw [captureBody_eq, if_pos h0]
  exact ⟨_, rfl, rfl, rfl, rfl⟩

/-- The run of `capture` when the first `k` reads succeed and the shutdown
request is first seen by check number `k`: `k` passes that read, then the
return. -/
theorem captureLoop_reads (env : Env) (buf file : List Byte) (bs k : Nat)
    (hreads : ∀ i, i < k → 0 ≤ (env.reads i).1 ∧ (env.reads i).1 ≤ bs)
    (hsig : ∀ i, i < k → env.signals i ≠ env.SHUTDOWN)
    (hshut : env.signals k = env.SHUTDOWN)
    (hfull : ∀ j, bs * NUM_CHANNELS ≤ env.fwrites j) :
    ∀ (j : Nat) (s : Sys) (fuel : Nat), s.sigCalls = s.pcmCalls → s.pcmCalls + j = k →
      j < fuel → CaptureInv env buf file s →
      ∃ s', captureLoop env bs fuel s = some (E_SUCCESS, s') ∧ s'.pcmCalls = k ∧
        CaptureInv env buf file s' := by
  intro j
  induction j with
  | zero =>
    intro s fuel hidx hk hfuel hinv
    obtain ⟨f, rfl⟩ : ∃ f, fuel = f + 1 := ⟨fuel - 1, by omega⟩
    have hk' : s.pcmCalls = k := by omega
    have h0 : env.signals s.sigCalls = env.SHUTDOWN := by rw [hidx, hk']; exact hshut
    obtain ⟨t, hb, ht, htf, htb⟩ := captureBody_shutdown env bs s h0
    refine ⟨t, captureLoop_ret hb f, by rw [ht, hk'], ?_, ?_⟩
    · rw [htf, ht]; exact hinv.1
    · rw [htb, ht]; exact hinv.2
  | succ j ih =>
    intro s fuel hidx hk hfuel hinv
    obtain ⟨f, rfl⟩ : ∃ f, fuel = f + 1 := ⟨fuel - 1, by omega⟩
    have hlt : s.pcmCalls < k := by omega
    have h0 : env.signals s.sigCalls ≠ env.SHUTDOWN := by rw [hidx]; exact hsig _ hlt
    obtain ⟨t, hb, ht1, ht2⟩ := captureBody_read_ok env bs s h0 (hreads _ hlt).1
    have hstep := captureBody_inv env buf file bs s (hreads _ hlt).2 (hfull _)
      (fun h => absurd (hreads _ hlt).1 (not_le.mpr h)) hinv
    rw [hb] at hstep
    obtain ⟨s', hrun, hcalls, hinv'⟩ := ih t f (by rw [ht1, ht2, hidx]) (by omega) (by omega)
      hstep
    exact ⟨s', by rw [captureLoop_next hb]; exact hrun, hcalls, hinv'⟩

/-- C1 as amended.  With a buffer that holds `buffer_size` frames:
(1) a pass of `capture` whose read succeeds with `n` frames, `n` at most
`buffer_size`, hands `fwrite` exactly the first `n * 2` shorts (`n * 2 * 2`
bytes) of the buffer, and the file grows by the shorts `fwrite` stores, whose
count the source discards;
(2) when the first `k` reads succeed, the shutdown request is first seen by
check number `k` and every `fwrite` stores all it is handed, `capture` returns
`E_SUCCESS` after `k` reads and the file is the content at entry followed by
the `k` prefixes in read order, 4 bytes per frame (400 bytes for 100 frames);
(3) in every run that returns, whatever the reads, with every `fwrite` stored
in full and `snd_pcm_recover` returning 0 or a negative code, the file at
return is the content at entry followed by the prefixes of the successful reads
in read order and nothing else, and the run ended at a check that saw
`SHUTDOWN` or at a failed `snd_pcm_prepare`. -/
theorem capture_file_content (env : Env) (buf file : List Byte) (buffer_size : Nat)
    (hbuf : buffer_size * NUM_CHANNELS * sizeof_short ≤ buf.length) :
    (∀ t : Sys, env.signals t.sigCalls ≠ env.SHUTDOWN → 0 ≤ (env.reads t.pcmCalls).1 →
      (env.reads t.pcmCalls).1 ≤ buffer_size →
      buffer_size * NUM_CHANNELS * sizeof_short ≤ t.buffer.length →
      ∃ t', captureBody env buffer_size t = Step.next t' ∧
        t'.trace = t.trace ++ [Event.check (env.signals t.sigCalls),
          Event.readi buffer_size (env.reads t.pcmCalls).1,
          Event.fwrite
            (t'.buffer.take ((env.reads t.pcmCalls).1.toNat * NUM_CHANNELS * sizeof_short))
            (min ((env.reads t.pcmCalls).1.toNat * NUM_CHANNELS)
              (env.fwrites t.fwCalls))] ∧
        (t'.buffer.take ((env.reads t.pcmCalls).1.toNat * NUM_CHANNELS * sizeof_short)).length
          = (env.reads t.pcmCalls).1.toNat * NUM_CHANNELS * sizeof_short ∧
        t'.file = t.file ++ t'.buffer.take
          (min ((env.reads t.pcmCalls).1.toNat * NUM_CHANNELS) (env.fwrites t.fwCalls)
            * sizeof_short)) ∧
    (∀ k : Nat, (∀ i, i < k → 0 ≤ (env.reads i).1 ∧ (env.reads i).1 ≤ buffer_size) →
      (∀ i, i < k → env.signals i ≠ env.SHUTDOWN) → env.signals k = env.SHUTDOWN →
      (∀ j, buffer_size * NUM_CHANNELS ≤ env.fwrites j) →
      ∀ fuel, k < fuel →
        ∃ s, capture env (some ()) (some buf) buffer_size file fuel = some (E_SUCCESS, s) ∧
          s.pcmCalls = k ∧
          s.file = file ++ capturedData env buf k ∧
          s.file.length = file.length + framesRead env k * NUM_CHANNELS * sizeof_short) ∧
    (∀ (fuel : Nat) (c : Int) (s : Sys), (∀ i, (env.reads i).1 ≤ buffer_size) →
      (∀ j, buffer_size * NUM_CHANNELS ≤ env.fwrites j) → (∀ j, env.recovers j ≤ 0) →
      capture env (some ()) (some buf) buffer_size file fuel = some (c, s) →
      s.file = file ++ capturedData env buf s.pcmCalls ∧
      s.file.length
        = file.length + framesRead env s.pcmCalls * NUM_CHANNELS * sizeof_short ∧
      ((c = E_SUCCESS ∧ ∃ pre, s.trace = pre ++ [Event.check env.SHUTDOWN]) ∨
        (c ≠ E_SUCCESS ∧ ∃ pre, s.trace = pre ++ [Event.prepare c]))) := by
  have hstart : CaptureInv env buf file (Sys.start buf file) :=
    ⟨by simp [Sys.start, capturedData], rfl⟩
  refine ⟨?_, ?_, ?_⟩
  · intro t h0 hn hle hlen
    have hcount : ((env.reads t.pcmCalls).1 * NUM_CHANNELS).toNat
        = (env.reads t.pcmCalls).1.toNat * NUM_CHANNELS := by
      simp only [NUM_CHANNELS, Nat.cast_ofNat]
      omega
    rw [captureBody_eq, if_neg h0, if_pos hn]
    refine ⟨_, rfl, ?_, ?_, ?_⟩
    · simp only [hcount, Nat.mul_comm sizeof_short, Nat.mul_assoc]
    · simp only [List.length_take, store_length]
      simp only [NUM_CHANNELS, sizeof_short] at *
      omega
    · simp only [hcount, Nat.mul_comm sizeof_short]
  · intro k hreads hsig hshut hfull fuel hfuel
    obtain ⟨s, hrun, hcalls, hinv⟩ := captureLoop_reads env buf file buffer_size k hreads hsig
      hshut hfull k (Sys.start buf file) fuel rfl (by simp [Sys.start]) hfuel hstart
    refine ⟨s, hrun, hcalls, by rw [hinv.1, hcalls], ?_⟩
    rw [hinv.1, hcalls, List.length_append]
    have hlen : ∀ j, j ≤ k →
        (capturedData env buf j).length = framesRead env j * NUM_CHANNELS * sizeof_short := by
      intro j
      induction j with
      | zero => intro _; rfl
      | succ j ih =>
        intro hj
        simp only [capturedData, framesRead, List.length_append, ih (by omega),
          readPrefix_length env buf buffer_size j hbuf (hreads j (by omega)).2]
        ring
    rw [hlen k (le_refl _)]
  · intro fuel c s hdev hfull hrec hrun
    have hinv : CaptureInv env buf file s :=
      captureLoop_inv env buf file buffer_size hdev hfull hrec fuel (Sys.start buf file) c s
        hstart hrun
    refine ⟨hinv.1, ?_, captureLoop_end env buffer_size fuel (Sys.start buf file) c s hrun⟩
    rw [hinv.1, List.length_append, capturedData_length env buf buffer_size hbuf hdev]

set_option maxRecDepth 100000 in
/-- Witness for C1 as amended: the device yields 100 frames in two reads, then the
shutdown request arrives; `capture` returns `E_SUCCESS` with a file of 400
bytes, the 256 bytes of the first read followed by the 144 bytes of the
second. -/
theorem capture_file_content_witness :
    (∃ s, capture hundredFramesEnv (some ()) (some (zeroBuffer 512)) FRAMES [] 3
        = some (E_SUCCESS, s) ∧
      s.pcmCalls = 2 ∧
      s.file = [] ++ capturedData hundredFramesEnv (zeroBuffer 512) 2 ∧
      s.file.length = 400) ∧
    (capture hundredFramesEnv (some ()) (some (zeroBuffer 512)) FRAMES [] 3).map
        (fun r => (r.1, r.2.file))
      = some (E_SUCCESS, List.replicate 256 1 ++ List.replicate 144 2) :=
  ⟨(capture_file_content hundredFramesEnv (zeroBuffer 512) [] FRAMES
      (by rw [zeroBuffer, List.length_replicate]; decide)).2.1 2
      (by intro i hi
          rcases i with _ | _ | i
          · decide
          · decide
          · omega)
      (by intro i hi
          rcases i with _ | _ | i
          · decide
          · decide
          · omega)
      (by decide) (by intro j; show 128 * 2 ≤ 65536; decide) 3 (by decide),
   by decide⟩

/-- C1, the claim fails.  First run: the read succeeds with one frame but the
output file has no room, `fwrite` stores nothing and its result is discarded;
`capture` returns `E_SUCCESS` with an empty file, the two samples missing.
Second run: the only read fails and `snd_pcm_recover` returns 1; `capture`
writes one frame of what the failed read left in the buffer, so the file holds
four bytes that are the prefix of no successful read. -/
theorem short_write_loses_samples :
    (capture diskFullEnv (some ()) (some (zeroBuffer 8)) 2 [] 2).map
        (fun r => (r.1, r.2.file, r.2.trace))
      = some (E_SUCCESS, [],
          [Event.check 0, Event.readi 2 1, Event.fwrite [1, 2, 3, 4] 0, Event.check 1]) ∧
    (capture positiveRecoverEnv (some ()) (some (zeroBuffer 8)) 2 [] 2).map
        (fun r => (r.1, r.2.file, r.2.trace))
      = some (E_SUCCESS, [9, 9, 9, 9],
          [Event.check 0, Event.readi 2 (-32), Event.check 0, Event.recover (-32) 1,
           Event.fwrite [9, 9, 9, 9] 2, Event.check 1]) := by
  decide

theorem writeEvents_append (t u : List Event) :
    writeEvents (t ++ u) = writeEvents t ++ writeEvents u := by
  induction t with
  | nil => rfl
  | cons e t ih => cases e <;> simp [writeEvents, ih]

theorem expectedWrites_data (env : Env) :
    ∀ (m k : Nat) (l : List Byte), l.length ≤ m → dataOf (expectedWrites env m k l) = l := by
  intro m
  induction m with
  | zero =>
    intro k l hl
    have : l = [] := List.length_eq_zero.mp (by omega)
    simp [expectedWrites, dataOf, this]
  | succ m ih =>
    intro k l hl
    unfold expectedWrites
    split_ifs with hnil
    · simp [hnil, dataOf]
    · have hpos : 0 < l.length := List.length_pos.mpr hnil
      have hdrop : (l.drop BUFFER_BYTES).length ≤ m := by
        simp only [List.length_drop, BUFFER_BYTES, FRAMES, NUM_CHANNELS, sizeof_short]
        omega
      simp only [dataOf, ih (k + 1) _ hdrop, List.take_append_drop]

theorem store_take (data buf : List Byte) (h : data.length ≤ buf.length) :
    (store data buf).take data.length = data := by
  unfold store
  rw [List.take_take, Nat.min_eq_left h, List.take_left']
  rfl

theorem fread_block (s : Sys) (hbuf : s.buffer.length = BUFFER_BYTES) (hnil : s.file ≠ [])
    (hal : s.file.length % (NUM_CHANNELS * sizeof_short) = 0) :
    (fread (FRAMES * NUM_CHANNELS) s).1 ≠ 0 ∧
    (fread (FRAMES * NUM_CHANNELS) s).1 / NUM_CHANNELS
      = (s.file.take BUFFER_BYTES).length / (NUM_CHANNELS * sizeof_short) ∧
    (fread (FRAMES * NUM_CHANNELS) s).2.buffer.take
        ((fread (FRAMES * NUM_CHANNELS) s).1 / NUM_CHANNELS * NUM_CHANNELS * sizeof_short)
      = s.file.take BUFFER_BYTES := by
  have hpos : 0 < s.file.length := List.length_pos.mpr hnil
  have hbytes : sizeof_short * (FRAMES * NUM_CHANNELS) = BUFFER_BYTES := by
    simp [BUFFER_BYTES, FRAMES, NUM_CHANNELS, sizeof_short]
  have hcount : (fread (FRAMES * NUM_CHANNELS) s).1
      = (s.file.take BUFFER_BYTES).length / sizeof_short := by
    simp only [fread, hbytes]
  have hlen : (s.file.take BUFFER_BYTES).length ≤ s.buffer.length := by
    rw [hbuf, List.length_take]
    exact Nat.min_le_left _ _
  have hfour : (s.file.take BUFFER_BYTES).length / sizeof_short / NUM_CHANNELS
      * NUM_CHANNELS * sizeof_short = (s.file.take BUFFER_BYTES).length := by
    simp only [List.length_take, BUFFER_BYTES, FRAMES, NUM_CHANNELS, sizeof_short] at *
    omega
  refine ⟨?_, ?_, ?_⟩
  · rw [hcount]
    simp only [List.length_take, BUFFER_BYTES, FRAMES, NUM_CHANNELS, sizeof_short] at *
    omega
  · rw [hcount]
    simp only [List.length_take, BUFFER_BYTES, FRAMES, NUM_CHANNELS, sizeof_short] at *
    omega
  · rw [hcount, hfour]
    show (store (s.file.take (sizeof_short * (FRAMES * NUM_CHANNELS))) s.buffer).take _ = _
    rw [hbytes]
    exact store_take _ _ hlen

theorem playbackBody_block (env : Env) (s : Sys)
    (hsig : ∀ k, env.signals k ≠ env.SHUTDOWN)
    (hrec : ∀ k j, env.writes k < 0 → 0 ≤ env.recovers j)
    (hbuf : s.buffer.length = BUFFER_BYTES) (hnil : s.file ≠ [])
    (hal : s.file.length % (NUM_CHANNELS * sizeof_short) = 0) :
    ∃ t, playbackBody env FRAMES s = Step.next t ∧
      t.file = s.file.drop BUFFER_BYTES ∧ t.buffer.length = BUFFER_BYTES ∧
      t.pcmCalls = s.pcmCalls + 1 ∧
      writeEvents t.trace = writeEvents s.trace ++
        [((s.file.take BUFFER_BYTES).length / (NUM_CHANNELS * sizeof_short),
          s.file.take BUFFER_BYTES, env.writes s.pcmCalls)] := by
  obtain ⟨h0, hsize, hdata⟩ := fread_block s hbuf hnil hal
  have hfile : (fread (FRAMES * NUM_CHANNELS) s).2.file = s.file.drop BUFFER_BYTES := rfl
  have hbuf' : (fread (FRAMES * NUM_CHANNELS) s).2.buffer.length = BUFFER_BYTES := by
    show (store _ s.buffer).length = _
    rw [store_length, hbuf]
  rw [playbackBody_eq, if_neg h0, if_neg (hsig _)]
  by_cases hw : 0 ≤ env.writes s.pcmCalls
  · rw [if_pos hw]
    refine ⟨_, rfl, hfile, hbuf', rfl, ?_⟩
    simp only [writeEvents_append, writeEvents]
    rw [hdata, hsize]
  · rw [if_neg hw, if_neg (hsig _), if_pos (hrec _ _ (not_le.mp hw))]
    refine ⟨_, rfl, hfile, hbuf', rfl, ?_⟩
    simp only [writeEvents_append, writeEvents]
    rw [hdata, hsize]

theorem playbackBody_end (env : Env) (bs : Nat) (s : Sys) (hnil : s.file = []) :
    playbackBody env bs s = Step.ret 0 (fread (bs * NUM_CHANNELS) s).2 ∧
    writeEvents (fread (bs * NUM_CHANNELS) s).2.trace = writeEvents s.trace := by
  have h0 : (fread (bs * NUM_CHANNELS) s).1 = 0 := by
    simp [fread, hnil]
  refine ⟨by rw [playbackBody_eq, if_pos h0], ?_⟩
  show writeEvents (s.trace ++ [Event.fread _]) = _
  simp [writeEvents_append, writeEvents]

theorem playbackLoop_run (env : Env)
    (hsig : ∀ k, env.signals k ≠ env.SHUTDOWN)
    (hrec : ∀ k j, env.writes k < 0 → 0 ≤ env.recovers j) :
    ∀ (m : Nat) (s : Sys) (fuel : Nat), s.file.length ≤ m → m < fuel →
      s.buffer.length = BUFFER_BYTES →
      s.file.length % (NUM_CHANNELS * sizeof_short) = 0 →
      ∃ s', playbackLoop env FRAMES fuel s = some (E_SUCCESS, s') ∧
        writeEvents s'.trace
          = writeEvents s.trace ++ expectedWrites env m s.pcmCalls s.file := by
  intro m
  induction m with
  | zero =>
    intro s fuel hlen hfuel _ _
    have hnil : s.file = [] := List.length_eq_zero.mp (by omega)
    obtain ⟨hb, hw⟩ := playbackBody_end env FRAMES s hnil
    obtain ⟨f, rfl⟩ : ∃ f, fuel = f + 1 := ⟨fuel - 1, by omega⟩
    exact ⟨_, playbackLoop_ret hb f, by simp [hw, expectedWrites]⟩
  | succ m ih =>
    intro s fuel hlen hfuel hbuf hal
    obtain ⟨f, rfl⟩ : ∃ f, fuel = f + 1 := ⟨fuel - 1, by omega⟩
    by_cases hnil : s.file = []
    · obtain ⟨hb, hw⟩ := playbackBody_end env FRAMES s hnil
      exact ⟨_, playbackLoop_ret hb f, by simp [hw, expectedWrites, hnil]⟩
    · obtain ⟨t, hb, hfile, hbuf', hcalls, hw⟩ :=
        playbackBody_block env s hsig hrec hbuf hnil hal
      have hpos : 0 < s.file.length := List.length_pos.mpr hnil
      have hlen' : t.file.length ≤ m := by
        rw [hfile, List.length_drop]
        simp only [BUFFER_BYTES, FRAMES, NUM_CHANNELS, sizeof_short]
        omega
      have hal' : t.file.length % (NUM_CHANNELS * sizeof_short) = 0 := by
        rw [hfile, List.length_drop]
        simp only [BUFFER_BYTES, FRAMES, NUM_CHANNELS, sizeof_short] at *
        omega
      obtain ⟨s', hrun, htr⟩ := ih t f hlen' (by omega) hbuf' hal'
      refine ⟨s', ?_, ?_⟩
      · rw [playbackLoop_next hb]
        exact hrun
      · rw [htr, hw, hcalls, hfile]
        simp [expectedWrites, hnil]

/-- C9, the claim fails: `playback` with a buffer of two frames on a file of four
frames, no shutdown; the first write fails and `snd_pcm_recover` succeeds.  The
run ends at the end of the input with `E_SUCCESS`, but the first two frames,
read from the file and handed to the failed write, are never sent again: the
successful writes carry only the second half of the file. -/
theorem failed_write_drops_block :
    (playback underrunEnv (some ()) (some (zeroBuffer 8)) 2 fourFrames 3).map
        (fun r => (r.1, r.2.trace, deliveredOf (writeEvents r.2.trace)))
      = some (E_SUCCESS,
          [Event.fread 4, Event.check 0, Event.writei 2 [1, 2, 3, 4, 5, 6, 7, 8] (-32),
           Event.check 0, Event.recover (-32) 0,
           Event.fread 4, Event.check 0, Event.writei 2 [9, 10, 11, 12, 13, 14, 15, 16] 2,
           Event.fread 0],
          [9, 10, 11, 12, 13, 14, 15, 16]) := by
  decide

/-- C9 as amended: in a run of `playback` (called as in `main`) on a file of
whole frames, with no shutdown request and every failed write followed by a
successful `snd_pcm_recover`, the run ends with `E_SUCCESS` and every byte of
the file is handed to the device in exactly one write call, in file order:
write number `i` gets block number `i` of the file.  A block whose write fails
is not sent again, so the successful writes carry exactly the blocks whose
write did not fail. -/
theorem playback_blocks_once (env : Env) (buf file : List Byte) (fuel : Nat)
    (hbuf : buf.length = BUFFER_BYTES)
    (hal : file.length % (NUM_CHANNELS * sizeof_short) = 0)
    (hsig : ∀ k, env.signals k ≠ env.SHUTDOWN) (hrec : ∀ j, 0 ≤ env.recovers j)
    (hfuel : file.length < fuel) :
    ∃ s, playback env (some ()) (some buf) FRAMES file fuel = some (E_SUCCESS, s) ∧
      writeEvents s.trace = expectedWrites env file.length 0 file ∧
      dataOf (writeEvents s.trace) = file ∧
      deliveredOf (writeEvents s.trace)
        = deliveredOf (expectedWrites env file.length 0 file) := by
  obtain ⟨s, hrun, htr⟩ := playbackLoop_run env hsig (fun _ j _ => hrec j) file.length
    (Sys.start buf file) fuel (le_refl _) hfuel hbuf hal
  have htr' : writeEvents s.trace = expectedWrites env file.length 0 file := by
    simpa [Sys.start, writeEvents] using htr
  exact ⟨s, hrun, htr', by rw [htr', expectedWrites_data env _ _ _ (le_refl _)], by rw [htr']⟩

/-- Witness for C9 as amended: the only write of a 512-byte file fails and is
recovered; the block was handed over once and nothing was delivered. -/
theorem playback_blocks_once_witness :
    ∃ s, playback underrunEnv (some ()) (some (zeroBuffer 512)) FRAMES fullBufferFile 513
        = some (E_SUCCESS, s) ∧
      writeEvents s.trace = expectedWrites underrunEnv fullBufferFile.length 0 fullBufferFile ∧
      dataOf (writeEvents s.trace) = fullBufferFile ∧
      deliveredOf (writeEvents s.trace)
        = deliveredOf (expectedWrites underrunEnv fullBufferFile.length 0 fullBufferFile) :=
  playback_blocks_once underrunEnv (zeroBuffer 512) fullBufferFile 513
    (by rw [zeroBuffer, List.length_replicate]; rfl)
    (by simp [fullBufferFile, NUM_CHANNELS, sizeof_short])
    (by intro k; simp [underrunEnv, quietEnv]) (by intro k; simp [underrunEnv, quietEnv])
    (by simp only [fullBufferFile, List.length_map, List.length_range]; omega)

theorem passTrace_append (t p : List Event) : passTrace t (t ++ p) = p := by
  simp [passTrace]

set_option maxRecDepth 100000 in
/-- C8, the claim fails, pass by pass (samples moved to or from the file against
frames moved to or from the device).  In `playback`: an odd read of three
samples sends one frame (3 against 1); a failed write has consumed four samples
and transferred nothing (4 against 0); so has a pass whose shutdown check after
the `fread` sees `SHUTDOWN` (4 against 0).  In `capture`: a successful read of
one frame whose `fwrite` finds the file full appends nothing (0 against 1); a
failed read after which `snd_pcm_recover` returns 1 appends two samples (2
against 0). -/
theorem samples_differ_from_frames :
    ((playbackBody oneFrameEnv FRAMES (Sys.start (zeroBuffer 512) [1, 2, 3, 4, 5, 6])).sys.trace
        = [Event.fread 3, Event.check 0, Event.writei 1 [1, 2, 3, 4] 1] ∧
      samplesMoved [Event.fread 3, Event.check 0, Event.writei 1 [1, 2, 3, 4] 1] = 3 ∧
      framesTransferred [Event.fread 3, Event.check 0, Event.writei 1 [1, 2, 3, 4] 1] = 1) ∧
    ((playbackBody underrunEnv 2 (Sys.start (zeroBuffer 8) twoFrames)).sys.trace
        = [Event.fread 4, Event.check 0, Event.writei 2 twoFrames (-32), Event.check 0,
           Event.recover (-32) 0] ∧
      samplesMoved [Event.fread 4, Event.check 0, Event.writei 2 twoFrames (-32),
        Event.check 0, Event.recover (-32) 0] = 4 ∧
      framesTransferred [Event.fread 4, Event.check 0, Event.writei 2 twoFrames (-32),
        Event.check 0, Event.recover (-32) 0] = 0) ∧
    ((playbackBody shutdownEnv 2 (Sys.start (zeroBuffer 8) twoFrames)).sys.trace
        = [Event.fread 4, Event.check 1] ∧
      samplesMoved [Event.fread 4, Event.check 1] = 4 ∧
      framesTransferred [Event.fread 4, Event.check 1] = 0) ∧
    ((captureBody diskFullEnv 2 (Sys.start (zeroBuffer 8) [])).sys.trace
        = [Event.check 0, Event.readi 2 1, Event.fwrite [1, 2, 3, 4] 0] ∧
      samplesMoved [Event.check 0, Event.readi 2 1, Event.fwrite [1, 2, 3, 4] 0] = 0 ∧
      framesTransferred [Event.check 0, Event.readi 2 1, Event.fwrite [1, 2, 3, 4] 0] = 1) ∧
    ((captureBody positiveRecoverEnv 2 (Sys.start (zeroBuffer 8) [])).sys.trace
        = [Event.check 0, Event.readi 2 (-32), Event.check 0, Event.recover (-32) 1,
           Event.fwrite [9, 9, 9, 9] 2] ∧
      samplesMoved [Event.check 0, Event.readi 2 (-32), Event.check 0,
        Event.recover (-32) 1, Event.fwrite [9, 9, 9, 9] 2] = 2 ∧
      framesTransferred [Event.check 0, Event.readi 2 (-32), Event.check 0,
        Event.recover (-32) 1, Event.fwrite [9, 9, 9, 9] 2] = 0) := by
  decide

/-- C8 as amended, for one pass from any state, samples being those `fwrite`
stored or `fread` returned and frames those the device call returned.
In `capture`, with a device that returns at most `buffer_size` frames into a
buffer that holds them and a `snd_pcm_recover` that returns no positive value:
the samples appended are at most `frames * NUM_CHANNELS` and at most
`buffer_size * NUM_CHANNELS`, the file grows by exactly these samples, and they
are exactly `frames * NUM_CHANNELS` when the file has room for a full buffer
(this covers the passes whose read fails: nothing appended, no frame).
In `playback`: the samples consumed are what `fread` returned, at most
`buffer_size * NUM_CHANNELS`; when the write is reached it is handed
`samples / NUM_CHANNELS` frames and the frames transferred are what it
returns, none if it fails; the samples are exactly `frames * NUM_CHANNELS` when
nothing was read, and when the count is even, the check after the `fread` does
not see `SHUTDOWN` and the write returns the number of frames it was handed. -/
theorem pass_samples_and_frames (env : Env) (buffer_size : Nat) (sc sp : Sys)
    (hbuf : buffer_size * NUM_CHANNELS * sizeof_short ≤ sc.buffer.length)
    (hdev : (env.reads sc.pcmCalls).1 ≤ buffer_size)
    (hrec : env.recovers sc.recCalls ≤ 0) :
    (samplesMoved (passTrace sc.trace (captureBody env buffer_size sc).sys.trace)
        ≤ NUM_CHANNELS *
          framesTransferred (passTrace sc.trace (captureBody env buffer_size sc).sys.trace) ∧
      samplesMoved (passTrace sc.trace (captureBody env buffer_size sc).sys.trace)
        ≤ buffer_size * NUM_CHANNELS ∧
      (captureBody env buffer_size sc).sys.file.length
        = sc.file.length
          + samplesMoved (passTrace sc.trace (captureBody env buffer_size sc).sys.trace)
            * sizeof_short ∧
      (buffer_size * NUM_CHANNELS ≤ env.fwrites sc.fwCalls →
        samplesMoved (passTrace sc.trace (captureBody env buffer_size sc).sys.trace)
          = NUM_CHANNELS *
            framesTransferred
              (passTrace sc.trace (captureBody env buffer_size sc).sys.trace))) ∧
    (samplesMoved (passTrace sp.trace (playbackBody env buffer_size sp).sys.trace)
        = (fread (buffer_size * NUM_CHANNELS) sp).1 ∧
      samplesMoved (passTrace sp.trace (playbackBody env buffer_size sp).sys.trace)
        ≤ buffer_size * NUM_CHANNELS ∧
      (0 < (fread (buffer_size * NUM_CHANNELS) sp).1 →
        env.signals sp.sigCalls ≠ env.SHUTDOWN →
        (∃ rest, passTrace sp.trace (playbackBody env buffer_size sp).sys.trace
          = Event.fread (fread (buffer_size * NUM_CHANNELS) sp).1
            :: Event.check (env.signals sp.sigCalls)
            :: Event.writei ((fread (buffer_size * NUM_CHANNELS) sp).1 / NUM_CHANNELS)
                ((fread (buffer_size * NUM_CHANNELS) sp).2.buffer.take
                  ((fread (buffer_size * NUM_CHANNELS) sp).1 / NUM_CHANNELS
                    * NUM_CHANNELS * sizeof_short))
                (env.writes sp.pcmCalls)
            :: rest) ∧
        framesTransferred (passTrace sp.trace (playbackBody env buffer_size sp).sys.trace)
          = (env.writes sp.pcmCalls).toNat) ∧
      ((fread (buffer_size * NUM_CHANNELS) sp).1 = 0 →
        framesTransferred (passTrace sp.trace (playbackBody env buffer_size sp).sys.trace)
          = 0) ∧
      ((fread (buffer_size * NUM_CHANNELS) sp).1 % NUM_CHANNELS = 0 →
        env.signals sp.sigCalls ≠ env.SHUTDOWN →
        env.writes sp.pcmCalls
          = (((fread (buffer_size * NUM_CHANNELS) sp).1 / NUM_CHANNELS : Nat) : Int) →
        samplesMoved (passTrace sp.trace (playbackBody env buffer_size sp).sys.trace)
          = NUM_CHANNELS *
            framesTransferred
              (passTrace sp.trace (playbackBody env buffer_size sp).sys.trace))) := by
  constructor
  · rw [captureBody_eq]
    split_ifs with h0 hn h1 hr h2 hp
    all_goals
      simp only [Step.sys, passTrace_append, samplesMoved, framesTransferred, List.length_append,
        List.length_take, store_length, NUM_CHANNELS, sizeof_short, Nat.cast_ofNat] at *
    all_goals
      first
      | omega
      | exact ⟨by omega, by omega, by omega, fun _ => trivial⟩
  · have hcap : (fread (buffer_size * NUM_CHANNELS) sp).1 ≤ buffer_size * NUM_CHANNELS := by
      simp only [fread, List.length_take, NUM_CHANNELS, sizeof_short]
      omega
    have e5 : (fread (buffer_size * NUM_CHANNELS) sp).2.trace
        = sp.trace ++ [Event.fread (fread (buffer_size * NUM_CHANNELS) sp).1] := rfl
    rw [playbackBody_eq]
    by_cases h0 : (fread (buffer_size * NUM_CHANNELS) sp).1 = 0
    · rw [if_pos h0]
      simp only [Step.sys, e5, passTrace_append, samplesMoved, framesTransferred]
      refine ⟨by omega, by omega, fun h => by omega, fun _ => trivial,
        fun _ _ _ => by omega⟩
    · rw [if_neg h0]
      by_cases hs : env.signals sp.sigCalls = env.SHUTDOWN
      · rw [if_pos hs]
        simp only [Step.sys, passTrace_append, samplesMoved, framesTransferred]
        exact ⟨by omega, by omega, fun _ h => absurd hs h, fun h => absurd h h0,
          fun _ h _ => absurd hs h⟩
      · rw [if_neg hs]
        split_ifs with hw h1 hr h2 hp
        all_goals
          simp only [Step.sys, passTrace_append, List.cons_append, List.nil_append,
            samplesMoved, framesTransferred]
        all_goals
          refine ⟨by omega, by omega, fun _ _ => ⟨⟨_, rfl⟩, by omega⟩, fun h => absurd h h0, ?_⟩
          intro heven _ hfull
          rw [hfull]
          simp only [NUM_CHANNELS, Int.toNat_ofNat] at *
          omega

set_option maxRecDepth 100000 in
/-- Witness for C8 as amended: a pass of `capture` reads 64 frames and appends
128 samples; a pass of `playback` on a 512-byte file consumes 256 samples and
the device takes the 128 frames it is handed. -/
theorem pass_samples_and_frames_witness :
    (samplesMoved (passTrace []
        (captureBody fullTransferEnv FRAMES (Sys.start (zeroBuffer 512) [])).sys.trace)
      = NUM_CHANNELS * framesTransferred (passTrace []
        (captureBody fullTransferEnv FRAMES (Sys.start (zeroBuffer 512) [])).sys.trace)) ∧
    (samplesMoved (passTrace []
        (playbackBody fullTransferEnv FRAMES
          (Sys.start (zeroBuffer 512) fullBufferFile)).sys.trace)
      = NUM_CHANNELS * framesTransferred (passTrace []
        (playbackBody fullTransferEnv FRAMES
          (Sys.start (zeroBuffer 512) fullBufferFile)).sys.trace)) ∧
    (samplesMoved
        (captureBody fullTransferEnv FRAMES (Sys.start (zeroBuffer 512) [])).sys.trace,
      framesTransferred
        (captureBody fullTransferEnv FRAMES (Sys.start (zeroBuffer 512) [])).sys.trace,
      samplesMoved
        (playbackBody fullTransferEnv FRAMES
          (Sys.start (zeroBuffer 512) fullBufferFile)).sys.trace,
      framesTransferred
        (playbackBody fullTransferEnv FRAMES
          (Sys.start (zeroBuffer 512) fullBufferFile)).sys.trace) = (128, 64, 256, 128) :=
  ⟨(pass_samples_and_frames fullTransferEnv FRAMES (Sys.start (zeroBuffer 512) [])
      (Sys.start (zeroBuffer 512) fullBufferFile)
      (by show 128 * 2 * 2 ≤ (List.replicate 512 (0 : Byte)).length
          rw [List.length_replicate])
      (by decide) (by decide)).1.2.2.2 (by decide),
   (pass_samples_and_frames fullTransferEnv FRAMES (Sys.start (zeroBuffer 512) [])
      (Sys.start (zeroBuffer 512) fullBufferFile)
      (by show 128 * 2 * 2 ≤ (List.replicate 512 (0 : Byte)).length
          rw [List.length_replicate])
      (by decide) (by decide)).2.2.2.2.2 (by decide) (by decide) (by decide),
   by decide⟩

end SoundLoop
